import Mathlib

/-!
# Verification of the Conversational Turn Engine

A shallow embedding of the voice-assistant repository's core: the tool-call
protocol codec (`ToolManager.parse_tool_call`, `execute_tool_call`,
`process_response_with_tools`, `format_tool_result_for_user` from
`src/tool_calls/tool_manager.py`), the bounded conversation memory
(`ConversationMemory` from `main.py`), the speech segmentation logic
(`VoiceAssistant._process_audio_chunk`), and the per-turn pipeline
(`VoiceAssistant._process_speech`).

External collaborators (VAD, STT, classifiers, retrieval store, LLM, TTS,
tool executors) are modelled as parameters: pure functions, or
`Except`-valued functions when the collaborator may raise an exception.
Python mutation semantics are modelled by explicit state passing; an
uncaught Python exception is modelled by an `err` field carrying the
exception message together with the state as mutated up to the raise.
-/

set_option maxRecDepth 10000

namespace VoiceAssistant

/-! ## Python/JSON value model

`Json` models the Python values produced by `json.loads`: strings, numbers,
booleans, `None`, lists and dicts.  Python distinguishes `int` from `float`;
a parsed number carries a rational value together with an `isFloat` flag
(set when the literal had a fraction or exponent part). Dicts are modelled
as insertion-ordered association lists; re-inserting an existing key keeps
its position and replaces its value, as in CPython. -/

inductive Json where
  | str (s : String)
  | num (v : ℚ) (isFloat : Bool)
  | bool (b : Bool)
  | null
  | arr (elems : List Json)
  | obj (fields : List (String × Json))
deriving Repr

namespace Json

mutual

def beq : Json → Json → Bool
  | .str a, .str b => a == b
  | .num a fa, .num b fb => a == b && fa == fb
  | .bool a, .bool b => a == b
  | .null, .null => true
  | .arr a, .arr b => beqList a b
  | .obj a, .obj b => beqFields a b
  | _, _ => false

def beqList : List Json → List Json → Bool
  | [], [] => true
  | a :: as, b :: bs => beq a b && beqList as bs
  | _, _ => false

def beqFields : List (String × Json) → List (String × Json) → Bool
  | [], [] => true
  | (ka, va) :: as, (kb, vb) :: bs => ka == kb && beq va vb && beqFields as bs
  | _, _ => false

end

instance : BEq Json := ⟨beq⟩

mutual

def beq_eq : ∀ a b : Json, beq a b = true → a = b
  | .str a, .str b, h => by
      simp only [beq, beq_iff_eq] at h; exact congrArg Json.str h
  | .num a fa, .num b fb, h => by
      simp only [beq, Bool.and_eq_true, beq_iff_eq] at h
      exact h.1 ▸ h.2 ▸ rfl
  | .bool a, .bool b, h => by
      simp only [beq, beq_iff_eq] at h; exact h ▸ rfl
  | .null, .null, _ => rfl
  | .arr a, .arr b, h => by
      simp only [beq] at h; exact congrArg Json.arr (beqList_eq a b h)
  | .obj a, .obj b, h => by
      simp only [beq] at h; exact congrArg Json.obj (beqFields_eq a b h)

def beqList_eq : ∀ a b : List Json, beqList a b = true → a = b
  | [], [], _ => rfl
  | a :: as, b :: bs, h => by
      simp only [beqList, Bool.and_eq_true] at h
      exact beq_eq a b h.1 ▸ beqList_eq as bs h.2 ▸ rfl

def beqFields_eq : ∀ a b : List (String × Json), beqFields a b = true → a = b
  | [], [], _ => rfl
  | (ka, va) :: as, (kb, vb) :: bs, h => by
      simp only [beqFields, Bool.and_eq_true, beq_iff_eq] at h
      obtain ⟨⟨h1, h2⟩, h3⟩ := h
      exact h1 ▸ beq_eq va vb h2 ▸ beqFields_eq as bs h3 ▸ rfl

end

mutual

def beq_refl : ∀ a : Json, beq a a = true
  | .str a => by simp [beq]
  | .num a fa => by simp [beq]
  | .bool a => by simp [beq]
  | .null => by simp [beq]
  | .arr a => by simp only [beq]; exact beqList_refl a
  | .obj a => by simp only [beq]; exact beqFields_refl a

def beqList_refl : ∀ a : List Json, beqList a a = true
  | [] => rfl
  | a :: as => by
      simp only [beqList, Bool.and_eq_true]
      exact ⟨beq_refl a, beqList_refl as⟩

def beqFields_refl : ∀ a : List (String × Json), beqFields a a = true
  | [] => rfl
  | (ka, va) :: as => by
      simp only [beqFields, Bool.and_eq_true, beq_self_eq_true, true_and]
      exact ⟨beq_refl va, beqFields_refl as⟩

end

instance : DecidableEq Json := fun a b =>
  if h : beq a b = true then .isTrue (beq_eq a b h)
  else .isFalse (fun he => h (he ▸ beq_refl a))

end Json

/-- Does the dict (association list) contain key `k`?  Models Python
`k in d` on a dict. -/
def hasKeyL (o : List (String × Json)) (k : String) : Bool :=
  o.any (fun p => p.1 == k)

/-- Look up key `k` in a dict.  Models Python `d.get(k)` (CPython keys are
unique after parsing, so first match is the value). -/
def getKeyL (o : List (String × Json)) (k : String) : Option Json :=
  (o.find? (fun p => p.1 == k)).map (fun p => p.2)

/-- Python `k in d` on a `Json` value that is a dict; `false` otherwise. -/
def Json.hasKey : Json → String → Bool
  | .obj o, k => hasKeyL o k
  | _, _ => false

/-- Python `d.get(k)` on a `Json` value that is a dict; `none` otherwise. -/
def Json.getKey : Json → String → Option Json
  | .obj o, k => getKeyL o k
  | _, _ => none

/-- Insert `(k, v)` into an insertion-ordered dict: replace in place if the
key exists, else append.  CPython dict-assignment semantics. -/
def upsert (o : List (String × Json)) (k : String) (v : Json) :
    List (String × Json) :=
  match o with
  | [] => [(k, v)]
  | (k', v') :: rest =>
      if k' == k then (k', v) :: rest else (k', v') :: upsert rest k v

/-- Python truthiness of a parsed-JSON value (`bool(x)`). -/
def pyTruthy : Json → Bool
  | .str s => s ≠ ""
  | .num v _ => v ≠ 0
  | .bool b => b
  | .null => false
  | .arr l => l ≠ []
  | .obj o => o ≠ []

/-! ## `json.loads` model

A recursive-descent parser for strict JSON (RFC 8259, as accepted by
Python's `json.loads` with default options): objects, arrays, strings with
escapes, numbers, `true`/`false`/`null`, with JSON whitespace between
tokens.  Numbers with a fraction or exponent part become floats.
Surrogate-pair `\uXXXX` escapes are combined; lone surrogates (accepted by
CPython, unrepresentable as Lean `Char`) make the model parser fail. -/

/-- JSON whitespace characters (space, tab, newline, carriage return). -/
def jsonWsChar (c : Char) : Bool :=
  c = ' ' || c = '\t' || c = '\n' || c = '\r'

def skipJsonWs (l : List Char) : List Char := l.dropWhile jsonWsChar

def hexVal (c : Char) : Option Nat :=
  let n := c.toNat
  if '0'.toNat ≤ n ∧ n ≤ '9'.toNat then some (n - '0'.toNat)
  else if 'a'.toNat ≤ n ∧ n ≤ 'f'.toNat then some (10 + n - 'a'.toNat)
  else if 'A'.toNat ≤ n ∧ n ≤ 'F'.toNat then some (10 + n - 'A'.toNat)
  else none

def parseHex4 : List Char → Option (Nat × List Char)
  | a :: b :: c :: d :: rest => do
      let va ← hexVal a
      let vb ← hexVal b
      let vc ← hexVal c
      let vd ← hexVal d
      pure (((va * 16 + vb) * 16 + vc) * 16 + vd, rest)
  | _ => none

/-- Parse the body of a JSON string after the opening quote; returns the
decoded characters and the input after the closing quote. -/
def parseJsonStr : Nat → List Char → Option (List Char × List Char)
  | 0, _ => none
  | _ + 1, [] => none
  | _ + 1, '"' :: rest => some ([], rest)
  | fuel + 1, '\\' :: esc => do
      let (c, rest) ←
        match esc with
        | '"' :: r => some ('"', r)
        | '\\' :: r => some ('\\', r)
        | '/' :: r => some ('/', r)
        | 'b' :: r => some ('\x08', r)
        | 'f' :: r => some ('\x0c', r)
        | 'n' :: r => some ('\n', r)
        | 'r' :: r => some ('\r', r)
        | 't' :: r => some ('\t', r)
        | 'u' :: r => do
            let (n, r') ← parseHex4 r
            if 0xD800 ≤ n && n < 0xDC00 then
              match r' with
              | '\\' :: 'u' :: r'' => do
                  let (m, r''') ← parseHex4 r''
                  if 0xDC00 ≤ m && m < 0xE000 then
                    pure (Char.ofNat (0x10000 + (n - 0xD800) * 0x400 + (m - 0xDC00)), r''')
                  else none
              | _ => none
            else if 0xDC00 ≤ n && n < 0xE000 then none
            else pure (Char.ofNat n, r')
        | _ => none
      let (cs, rest') ← parseJsonStr fuel rest
      pure (c :: cs, rest')
  | fuel + 1, c :: rest => do
      if c.toNat < 0x20 then none
      else do
        let (cs, rest') ← parseJsonStr fuel rest
        pure (c :: cs, rest')

def digitsToNat (ds : List Char) : Nat :=
  ds.foldl (fun n c => n * 10 + (c.toNat - '0'.toNat)) 0

/-- Parse a JSON number (the input starts with `-` or a digit). -/
def parseJsonNum (l : List Char) : Option (Json × List Char) := do
  let (neg, l1) := match l with
    | '-' :: r => (true, r)
    | _ => (false, l)
  let ip := l1.takeWhile Char.isDigit
  if ip = [] then none
  else if ip.head? = some '0' && ip.length > 1 then none
  else do
    let l2 := l1.drop ip.length
    let (fr, l3) ← match l2 with
      | '.' :: r =>
          let fd := r.takeWhile Char.isDigit
          if fd = [] then none else some (some fd, r.drop fd.length)
      | _ => some (none, l2)
    let (ex, l4) ← match l3 with
      | 'e' :: r | 'E' :: r =>
          let (esign, r1) := match r with
            | '+' :: r' => ((1 : Int), r')
            | '-' :: r' => ((-1 : Int), r')
            | _ => ((1 : Int), r)
          let ed := r1.takeWhile Char.isDigit
          if ed = [] then none
          else some (some (esign * (digitsToNat ed : Int)), r1.drop ed.length)
      | _ => some (none, l3)
    let base : ℚ := (digitsToNat ip : ℚ) +
      (match fr with
       | some fd => (digitsToNat fd : ℚ) / ((10 : ℚ) ^ fd.length)
       | none => 0)
    let scaled : ℚ := base * (10 : ℚ) ^ (ex.getD 0)
    let v : ℚ := if neg then -scaled else scaled
    pure (Json.num v (fr.isSome || ex.isSome), l4)

mutual

/-- Parse one JSON value; the input may begin with whitespace. -/
def parseJsonVal : Nat → List Char → Option (Json × List Char)
  | 0, _ => none
  | fuel + 1, l =>
    match skipJsonWs l with
    | '{' :: rest => parseJsonObj fuel rest []
    | '[' :: rest => parseJsonArr fuel rest []
    | '"' :: rest => do
        let (cs, rest') ← parseJsonStr (fuel + 1) rest
        pure (Json.str (String.mk cs), rest')
    | 't' :: 'r' :: 'u' :: 'e' :: rest => some (Json.bool true, rest)
    | 'f' :: 'a' :: 'l' :: 's' :: 'e' :: rest => some (Json.bool false, rest)
    | 'n' :: 'u' :: 'l' :: 'l' :: rest => some (Json.null, rest)
    | l' => parseJsonNum l'

/-- Parse the fields of an object after the opening brace (or after a
comma), accumulating into `acc` with CPython duplicate-key semantics. -/
def parseJsonObj (fuel : Nat) (l : List Char) (acc : List (String × Json)) :
    Option (Json × List Char) :=
  match fuel with
  | 0 => none
  | fuel + 1 =>
    match skipJsonWs l with
    | '}' :: rest => if acc = [] then some (Json.obj [], rest) else none
    | '"' :: rest => do
        let (ks, rest1) ← parseJsonStr (fuel + 1) rest
        match skipJsonWs rest1 with
        | ':' :: rest2 => do
            let (v, rest3) ← parseJsonVal fuel rest2
            let acc' := upsert acc (String.mk ks) v
            match skipJsonWs rest3 with
            | ',' :: rest4 => parseJsonObjMore fuel rest4 acc'
            | '}' :: rest4 => some (Json.obj acc', rest4)
            | _ => none
        | _ => none
    | _ => none

/-- After a comma inside an object: a key-value pair must follow. -/
def parseJsonObjMore (fuel : Nat) (l : List Char) (acc : List (String × Json)) :
    Option (Json × List Char) :=
  match fuel with
  | 0 => none
  | fuel + 1 =>
    match skipJsonWs l with
    | '"' :: rest => do
        let (ks, rest1) ← parseJsonStr (fuel + 1) rest
        match skipJsonWs rest1 with
        | ':' :: rest2 => do
            let (v, rest3) ← parseJsonVal fuel rest2
            let acc' := upsert acc (String.mk ks) v
            match skipJsonWs rest3 with
            | ',' :: rest4 => parseJsonObjMore fuel rest4 acc'
            | '}' :: rest4 => some (Json.obj acc', rest4)
            | _ => none
        | _ => none
    | _ => none

/-- Parse the elements of an array after the opening bracket. -/
def parseJsonArr (fuel : Nat) (l : List Char) (acc : List Json) :
    Option (Json × List Char) :=
  match fuel with
  | 0 => none
  | fuel + 1 =>
    match skipJsonWs l with
    | ']' :: rest => if acc = [] then some (Json.arr [], rest) else none
    | l' => do
        let (v, rest) ← parseJsonVal fuel l'
        match skipJsonWs rest with
        | ',' :: rest' => parseJsonArr fuel rest' (acc ++ [v])
        | ']' :: rest' => some (Json.arr (acc ++ [v]), rest')
        | _ => none

end

/-- Model of Python `json.loads`: parse exactly one JSON document,
allowing surrounding whitespace; `none` models a raised
`json.JSONDecodeError`. -/
def jsonLoads (s : String) : Option Json :=
  match parseJsonVal (s.length + 1) s.data with
  | some (v, rest) => if skipJsonWs rest = [] then some v else none
  | none => none

/-! ## Tool-call extraction (`ToolManager.parse_tool_call`)

The source applies, in order, three regular expressions and a bare-JSON
fallback to the generated text.  Each pattern is modelled as a direct
string-scanning function implementing that pattern's matching semantics
(leftmost match position; lazy groups take the shortest span; greedy
whitespace runs with the backtracking the pattern admits). -/

/-- Whitespace as matched by Python's `\s` and stripped by `str.strip()`
(space, tab, newline, carriage return, vertical tab, form feed). -/
def pyWsChar (c : Char) : Bool :=
  c = ' ' || c = '\t' || c = '\n' || c = '\r' || c = '\x0b' || c = '\x0c'

def trimChars (l : List Char) : List Char :=
  ((l.dropWhile pyWsChar).reverse.dropWhile pyWsChar).reverse

/-- Python `str.strip()`. -/
def pyStrip (s : String) : String := String.mk (trimChars s.data)

/-- Index of the first occurrence of `pat` as a contiguous sublist of `l`. -/
def findSub (pat : List Char) : List Char → Option Nat
  | [] => if pat.isEmpty then some 0 else none
  | c :: rest =>
      if pat.isPrefixOf (c :: rest) then some 0
      else (findSub pat rest).map (· + 1)

def openTag : List Char := "<tool_call>".data
def closeTag : List Char := "</tool_call>".data

/-- Pattern 1, `<tool_call>\s*(.*?)\s*</tool_call>` with DOTALL, followed by
the source's `.strip()` of the group: the text strictly between the first
opening marker and the first closing marker after it, stripped. -/
def pat1 (r : List Char) : Option (List Char) :=
  match findSub openTag r with
  | none => none
  | some i =>
      let afterOpen := (r.drop i).drop openTag.length
      match findSub closeTag afterOpen with
      | none => none
      | some j => some (trimChars (afterOpen.take j))

/-- Tail condition for `\s*(?:\n|$)` (no MULTILINE): after backtracking the
greedy `\s*`, the match succeeds iff the whitespace run that follows
contains a newline or extends to the end of the input. -/
def nlTailCond (l : List Char) : Bool :=
  let w := l.takeWhile pyWsChar
  w.contains '\n' || w.length = l.length

/-- Scan for the lazy `.*?\}` of pattern 2: the first closing brace whose
tail satisfies `nlTailCond`; `acc` holds the (reversed) span so far. -/
def pat2Close : List Char → List Char → Option (List Char)
  | [], _ => none
  | c :: rest, acc =>
      if c = '}' && nlTailCond rest then some (('{' :: acc.reverse) ++ ['}'])
      else pat2Close rest (c :: acc)

/-- Attempt pattern 2 directly after one opening marker: `\s*` must end at a
brace, then the lazy brace span with newline/end tail. -/
def pat2At (rest : List Char) : Option (List Char) :=
  match rest.dropWhile pyWsChar with
  | '{' :: body => pat2Close body []
  | _ => none

def pat2Go : Nat → List Char → Option (List Char)
  | 0, _ => none
  | fuel + 1, r =>
    match findSub openTag r with
    | none => none
    | some i =>
        let atTag := r.drop i
        match pat2At (atTag.drop openTag.length) with
        | some g => some g
        | none => pat2Go fuel (atTag.drop 1)

/-- Pattern 2, `<tool_call>\s*(\{.*?\})\s*(?:\n|$)` with DOTALL: tried at
each opening marker in order (the search resumes at later markers when the
tail fails at an earlier one). -/
def pat2 (r : List Char) : Option (List Char) := pat2Go (r.length + 1) r

/-- Scan for the lazy `[^<]*?\}` of pattern 3: the first closing brace, with
no `<` allowed before it. -/
def pat3Close : List Char → List Char → Option (List Char)
  | [], _ => none
  | c :: rest, acc =>
      if c = '}' then some (('{' :: acc.reverse) ++ ['}'])
      else if c = '<' then none
      else pat3Close rest (c :: acc)

def pat3At (rest : List Char) : Option (List Char) :=
  match rest.dropWhile pyWsChar with
  | '{' :: body => pat3Close body []
  | _ => none

def pat3Go : Nat → List Char → Option (List Char)
  | 0, _ => none
  | fuel + 1, r =>
    match findSub openTag r with
    | none => none
    | some i =>
        let atTag := r.drop i
        match pat3At (atTag.drop openTag.length) with
        | some g => some g
        | none => pat3Go fuel (atTag.drop 1)

/-- Pattern 3, `<tool_call>\s*(\{[^<]*?\})`. -/
def pat3 (r : List Char) : Option (List Char) := pat3Go (r.length + 1) r

/-- The literal `{"tool_name":` of the bare-JSON pattern. -/
def bareLit1 : List Char := "\x7b\"tool_name\":".data

/-- The literal `"parameters":` of the bare-JSON pattern. -/
def bareLit2 : List Char := "\"parameters\":".data

/-- Attempt the bare-JSON pattern
`^\s*(\{"tool_name":\s*"[^"]+",\s*"parameters":\s*\{[^}]*\}\})\s*$`
(MULTILINE) at one line-start position; returns the captured group. -/
def bareMatchAt (l0 : List Char) : Option (List Char) :=
  let l1 := l0.dropWhile pyWsChar
  if bareLit1.isPrefixOf l1 then
    let l2 := (l1.drop bareLit1.length).dropWhile pyWsChar
    match l2 with
    | '"' :: l4 =>
        let name := l4.takeWhile (fun c => c ≠ '"')
        if name = [] then none else
        match l4.drop name.length with
        | '"' :: ',' :: l5 =>
            let l6 := l5.dropWhile pyWsChar
            if bareLit2.isPrefixOf l6 then
              let l7 := (l6.drop bareLit2.length).dropWhile pyWsChar
              match l7 with
              | '{' :: l8 =>
                  let ps := l8.takeWhile (fun c => c ≠ '}')
                  match l8.drop ps.length with
                  | '}' :: '}' :: l9 =>
                      if nlTailCond l9 then
                        some (l1.take (l1.length - l9.length))
                      else none
                  | _ => none
              | _ => none
            else none
        | _ => none
    | _ => none
  else none

/-- The MULTILINE `^` anchor positions after the start of the input: the
suffix after each newline. -/
def suffixesAfterNl : List Char → List (List Char)
  | [] => []
  | c :: rest =>
      if c = '\n' then rest :: suffixesAfterNl rest else suffixesAfterNl rest

/-- The bare-JSON fallback search over all line-start positions. -/
def bareSearch (r : List Char) : Option (List Char) :=
  (r :: suffixesAfterNl r).findSome? bareMatchAt

/-- The first of the three wrapped patterns (lines 269-284) that matches,
with its group. -/
def patternsGroup (r : List Char) : Option (List Char) :=
  match pat1 r with
  | some g => some g
  | none =>
      match pat2 r with
      | some g => some g
      | none => pat3 r

/-- The bare-JSON fallback of lines 287-293, with the group stripped and
the final falsiness check of line 295. -/
def bareFallback (r : List Char) : Option String :=
  match (bareSearch (trimChars r)).map trimChars with
  | some g => if g = [] then none else some (String.mk g)
  | none => none

/-- Lines 278-297 of `tool_manager.py`: try the three wrapped patterns in
order (taking the stripped group of the first that matches); if none
matched or the stripped group is empty (falsy), fall back to the bare-JSON
search over the stripped response; a still-falsy result means no tool call
(`None`). -/
def extracted_call_json (response : String) : Option String :=
  match (patternsGroup response.data).map trimChars with
  | some g => if g = [] then bareFallback response.data else some (String.mk g)
  | none => bareFallback response.data

/-- The dict `{"error": "Could not parse any valid tool call JSON"}`
returned when every candidate fails (line 336). -/
def parseErrorDict : Json :=
  Json.obj [("error", Json.str "Could not parse any valid tool call JSON")]

/-- Python `s.split(sep)[0]` for a non-empty separator: the prefix before
the first occurrence of `sep`, or the whole string when `sep` is absent. -/
def splitHead (s sep : String) : String :=
  match findSub sep.data s.data with
  | none => s
  | some i => String.mk (s.data.take i)

/-- The candidate strings of lines 301-306: the span itself and its prefix
before a Chinese "and", an English `" and "`, and a newline. -/
def candidateJsons (s : String) : List String :=
  [s, splitHead s " 和 ", splitHead s " and ", splitHead s "\n"]

/-- Lines 308-336: each candidate is stripped; brace-wrapped candidates are
parsed as JSON; a parsed object missing `tool_name` but carrying
`expression` is repaired into a calculator call; an object without the
`tool_name`/`parameters` wrapper is skipped; otherwise the object is the
call.  When all candidates fail, the explicit parse-error dict results. -/
def tryCandidates : List String → Json
  | [] => parseErrorDict
  | c :: rest =>
      if (pyStrip c).data.head? = some '{' && (pyStrip c).data.getLast? = some '}' then
        match jsonLoads (pyStrip c) with
        | some (Json.obj o) =>
            if hasKeyL o "expression" && !(hasKeyL o "tool_name") then
              Json.obj [("tool_name", Json.str "calculator"),
                        ("parameters", Json.obj o)]
            else if !(hasKeyL o "tool_name") || !(hasKeyL o "parameters") then
              tryCandidates rest
            else Json.obj o
        | _ => tryCandidates rest
      else tryCandidates rest

/-- Model of `ToolManager.parse_tool_call`: `none` models Python `None` ("no tool
call"); `some d` models a returned dict — either a call dict or the
parse-error dict. -/
def parse_tool_call (response : String) : Option Json :=
  match extracted_call_json response with
  | none => none
  | some s => some (tryCandidates (candidateJsons s))

/-! ## Python value rendering

String conversions used by the source's f-strings and by
`json.dumps(result, indent=2)` in the formatting fallback.  Python float
`repr` is approximated by exact decimal rendering of the rational value
(identical on the decimal fractions that appear in practice). -/

/-- Decimal digits of a proper fraction `r / d`, at most `fuel` digits. -/
def fracDigits : Nat → Nat → Nat → List Char
  | 0, _, _ => []
  | fuel + 1, r, d =>
      if r = 0 then []
      else
        let r10 := r * 10
        Char.ofNat ('0'.toNat + r10 / d) :: fracDigits fuel (r10 % d) d

/-- Rendering of a float value, Python style (always a decimal point). -/
def floatRepr (q : ℚ) : String :=
  let sign := if q < 0 then "-" else ""
  let a := |q|
  let ip := a.floor.toNat
  let r := a - (ip : ℚ)
  let ds := fracDigits 17 r.num.toNat r.den
  sign ++ toString ip ++ "." ++ (if ds = [] then "0" else String.mk ds)

/-- Rendering of a JSON number: int digits, or float rendering. -/
def jsonNumStr (v : ℚ) (isFloat : Bool) : String :=
  if isFloat then floatRepr v else toString v.num

mutual

/-- Python `repr()` of a parsed-JSON value (approximate: strings are
single-quoted without escape processing; only reached for containers). -/
def pyRepr : Json → String
  | .str s => "'" ++ s ++ "'"
  | .num v f => jsonNumStr v f
  | .bool true => "True"
  | .bool false => "False"
  | .null => "None"
  | .arr l => "[" ++ pyReprElems l ++ "]"
  | .obj o => "\x7b" ++ pyReprFields o ++ "\x7d"

def pyReprElems : List Json → String
  | [] => ""
  | [x] => pyRepr x
  | x :: xs => pyRepr x ++ ", " ++ pyReprElems xs

def pyReprFields : List (String × Json) → String
  | [] => ""
  | [(k, v)] => "'" ++ k ++ "': " ++ pyRepr v
  | (k, v) :: fs => "'" ++ k ++ "': " ++ pyRepr v ++ ", " ++ pyReprFields fs

end

/-- Python `str()` of a parsed-JSON value, as interpolated by f-strings. -/
def pyStr : Json → String
  | .str s => s
  | v => pyRepr v

/-- Python `str()` of an optional value (`None` when the key was missing). -/
def pyStrOpt : Option Json → String
  | none => "None"
  | some v => pyStr v

def hexDigitChar (n : Nat) : Char :=
  if n < 10 then Char.ofNat ('0'.toNat + n) else Char.ofNat ('a'.toNat + n - 10)

def u4 (n : Nat) : String :=
  String.mk [hexDigitChar (n / 4096 % 16), hexDigitChar (n / 256 % 16),
    hexDigitChar (n / 16 % 16), hexDigitChar (n % 16)]

/-- JSON string escaping as produced by `json.dumps` (`ensure_ascii`). -/
def jsonEscChar (c : Char) : String :=
  if c = '"' then "\\\""
  else if c = '\\' then "\\\\"
  else if c = '\n' then "\\n"
  else if c = '\t' then "\\t"
  else if c = '\r' then "\\r"
  else if c = '\x08' then "\\b"
  else if c = '\x0c' then "\\f"
  else if c.toNat < 0x20 then "\\u" ++ u4 c.toNat
  else if c.toNat < 0x7f then String.mk [c]
  else if c.toNat < 0x10000 then "\\u" ++ u4 c.toNat
  else
    let m := c.toNat - 0x10000
    "\\u" ++ u4 (0xd800 + m / 1024) ++ "\\u" ++ u4 (0xdc00 + m % 1024)

def jsonQuote (s : String) : String :=
  "\"" ++ String.join (s.data.map jsonEscChar) ++ "\""

def dumpsPad (level : Nat) : String := String.mk (List.replicate (2 * level) ' ')

mutual

/-- Rendering of `json.dumps(v, indent=2)` at nesting depth `level`. -/
def jsonDumps : Json → Nat → String
  | .str s, _ => jsonQuote s
  | .num v f, _ => jsonNumStr v f
  | .bool true, _ => "true"
  | .bool false, _ => "false"
  | .null, _ => "null"
  | .arr [], _ => "[]"
  | .arr (x :: xs), level =>
      "[\n" ++ jsonDumpsElems (x :: xs) (level + 1) ++ "\n" ++ dumpsPad level ++ "]"
  | .obj [], _ => "\x7b\x7d"
  | .obj (f :: fs), level =>
      "\x7b\n" ++ jsonDumpsFields (f :: fs) (level + 1) ++ "\n" ++ dumpsPad level ++ "\x7d"

def jsonDumpsElems : List Json → Nat → String
  | [], _ => ""
  | [x], level => dumpsPad level ++ jsonDumps x level
  | x :: xs, level =>
      dumpsPad level ++ jsonDumps x level ++ ",\n" ++ jsonDumpsElems xs level

def jsonDumpsFields : List (String × Json) → Nat → String
  | [], _ => ""
  | [(k, v)], level => dumpsPad level ++ jsonQuote k ++ ": " ++ jsonDumps v level
  | (k, v) :: fs, level =>
      dumpsPad level ++ jsonQuote k ++ ": " ++ jsonDumps v level ++ ",\n" ++
        jsonDumpsFields fs level

end

/-! ## Tool registry and dispatcher (`ToolManager`) -/

/-- A tool executor models `ToolClass.execute(**parameters)`: the concrete
business logic is an external collaborator.  `.error e` models the call
raising an exception with message `e`; per the tools' contract a normal
return is a result dict. -/
def Executor := Json → Except String (List (String × Json))

structure ToolManager where
  tools : List (String × Executor)

/-- Model of `ToolManager.__init__`: calculator and weather are always registered;
google_calendar only when its manager constructs without raising. -/
def ToolManager.init (calculator weather calendar : Executor)
    (calendarOk : Bool) : ToolManager :=
  { tools := [("calculator", calculator), ("weather_checker", weather)] ++
      (if calendarOk then [("google_calendar", calendar)] else []) }

def ToolManager.lookup (tm : ToolManager) (n : String) : Option Executor :=
  (tm.tools.find? (fun p => p.1 == n)).map (fun p => p.2)

/-- Model of `ToolManager.execute_tool_call` (lines 338-381): an error dict passes
through; an unknown (or missing, or non-string) tool name yields the
distinct unknown-tool error dict without consulting any executor; an
executor exception is caught and reported with `success=False`.  (The
source's `google_calendar` branch executes identically to the generic
branch, so no case split is needed.) -/
def execute_tool_call (tm : ToolManager) (tool_call : Json) : Json :=
  if tool_call.hasKey "error" then tool_call
  else
    let parameters : Json := (tool_call.getKey "parameters").getD (Json.obj [])
    match tool_call.getKey "tool_name" with
    | some (Json.str n) =>
        match tm.lookup n with
        | some exec =>
            match exec parameters with
            | .ok result =>
                Json.obj [("tool_name", Json.str n), ("parameters", parameters),
                  ("result", Json.obj result),
                  ("success", Json.bool (!(hasKeyL result "error")))]
            | .error e =>
                Json.obj [("tool_name", Json.str n), ("parameters", parameters),
                  ("error", Json.str ("Tool execution error: " ++ e)),
                  ("success", Json.bool false)]
        | none => Json.obj [("error", Json.str ("Unknown tool: " ++ n))]
    | other => Json.obj [("error", Json.str ("Unknown tool: " ++ pyStrOpt other))]

def Json.asList : Json → List Json
  | .arr l => l
  | _ => []

def Json.asNum : Json → ℚ
  | .num v _ => v
  | _ => 0

/-- Integer f-string rendering of a count. -/
def pyNumStr (q : ℚ) : String := pyStr (Json.num q false)

/-- The `google_calendar` arm of `format_tool_result_for_user`
(lines 455-511): `none` means the arm fell through to the generic
fallback.  Where the source indexes required fields of the calendar
result directly (`event['title']` etc.), the model reads them with a
`null` default. -/
def format_calendar_result (result : Json) : Option String :=
  let action := (result.getKey "action").getD (Json.str "")
  let bottom : Option String :=
    (result.getKey "message").map (fun m => "📅 " ++ pyStr m)
  if action = Json.str "create_event" then
    bottom
  else if action = Json.str "list_events" then
    let events := ((result.getKey "events").getD (Json.arr [])).asList
    let count := ((result.getKey "count").getD (Json.num 0 false)).asNum
    let date_range := pyStr ((result.getKey "date_range").getD (Json.str ""))
    if count = 0 then some ("📅 No events found for " ++ date_range)
    else if count = 1 then
      let event := events.headD (Json.obj [])
      let loc := (event.getKey "location").getD Json.null
      some ("📅 You have 1 event: '" ++
        pyStr ((event.getKey "title").getD Json.null) ++ "' at " ++
        pyStr ((event.getKey "start").getD Json.null) ++ " in " ++
        (if pyTruthy loc then pyStr loc else "No location"))
    else
      let event_list := (events.take 3).map (fun event =>
        let loc := (event.getKey "location").getD Json.null
        let location_text := if pyTruthy loc then " in " ++ pyStr loc else ""
        "'" ++ pyStr ((event.getKey "title").getD Json.null) ++ "' at " ++
          pyStr ((event.getKey "start").getD Json.null) ++ location_text)
      if count > 3 then
        some ("📅 You have " ++ pyNumStr count ++ " events. First 3: " ++
          String.intercalate ", " event_list ++ ", and " ++
          pyNumStr (count - 3) ++ " more.")
      else
        some ("📅 You have " ++ pyNumStr count ++ " events: " ++
          String.intercalate ", " event_list)
  else if action = Json.str "find_free_time" then
    let free_slots := ((result.getKey "free_slots").getD (Json.arr [])).asList
    let date := pyStr ((result.getKey "date").getD (Json.str ""))
    let duration :=
      ((result.getKey "requested_duration").getD (Json.num 0 false)).asNum
    if free_slots = [] then
      some ("📅 No free time slots found for " ++ pyNumStr duration ++
        " minutes on " ++ date)
    else if free_slots.length = 1 then
      let slot := free_slots.headD (Json.obj [])
      some ("📅 Found 1 free slot on " ++ date ++ ": " ++
        pyStr ((slot.getKey "start_time").getD Json.null) ++ " - " ++
        pyStr ((slot.getKey "end_time").getD Json.null) ++ " (" ++
        pyStr ((slot.getKey "duration_available").getD Json.null) ++
        " min available)")
    else
      let slot_list := (free_slots.take 3).map (fun slot =>
        pyStr ((slot.getKey "start_time").getD Json.null) ++ "-" ++
          pyStr ((slot.getKey "end_time").getD Json.null))
      some ("📅 Found " ++ toString free_slots.length ++ " free slots on " ++
        date ++ ": " ++ String.intercalate ", " slot_list)
  else if action = Json.str "update_event" ∨ action = Json.str "delete_event" then
    bottom
  else if action = Json.str "get_event_details" then
    let event := (result.getKey "event").getD (Json.obj [])
    if pyTruthy event then
      let locv := (event.getKey "location").getD Json.null
      let location_text :=
        if pyTruthy locv then
          " in " ++ pyStr ((event.getKey "location").getD (Json.str "No location"))
        else ""
      some ("📅 Event: '" ++ pyStrOpt (event.getKey "title") ++ "' on " ++
        pyStrOpt (event.getKey "start") ++ location_text)
    else bottom
  else if action = Json.str "list_calendars" then
    let calendars := ((result.getKey "calendars").getD (Json.arr [])).asList
    let count := ((result.getKey "count").getD (Json.num 0 false)).asNum
    let primary_cal :=
      match calendars.find?
          (fun cal => pyTruthy ((cal.getKey "primary").getD Json.null)) with
      | some cal => pyStr ((cal.getKey "name").getD Json.null)
      | none => "Unknown"
    some ("📅 You have " ++ pyNumStr count ++ " calendars. Primary: " ++
      primary_cal)
  else bottom

/-- Model of `ToolManager.format_tool_result_for_user` (lines 427-514). -/
def format_tool_result_for_user (tool_result : Json) : String :=
  let result0 := (tool_result.getKey "result").getD (Json.obj [])
  if result0.hasKey "error" then
    "❌ " ++ pyStr ((result0.getKey "error").getD Json.null)
  else if !(pyTruthy ((tool_result.getKey "success").getD (Json.bool false))) then
    "❌ Tool Error: " ++
      pyStr ((tool_result.getKey "error").getD (Json.str "Unknown error"))
  else
    let tool_name := (tool_result.getKey "tool_name").getD (Json.str "unknown")
    let result := (tool_result.getKey "result").getD (Json.obj [])
    let fallback := "🔧 " ++ pyStr tool_name ++ ": " ++ jsonDumps result 0
    if tool_name = Json.str "calculator" then
      if result.hasKey "calculation" then
        "🧮 **" ++ pyStr ((result.getKey "calculation").getD Json.null) ++ "**"
      else if result.hasKey "formatted_result" then
        "🧮 **Result: " ++
          pyStr ((result.getKey "formatted_result").getD Json.null) ++ "**"
      else if result.hasKey "result" then
        "🧮 **Result: " ++ pyStr ((result.getKey "result").getD Json.null) ++ "**"
      else "🧮 **Calculation completed**"
    else if tool_name = Json.str "weather_checker" then
      match result.getKey "summary" with
      | some s => pyStr s
      | none => fallback
    else if tool_name = Json.str "google_calendar" then
      (format_calendar_result result).getD fallback
    else fallback

/-! ## Response cleaning and `process_response_with_tools` -/

/-- Model of `re.sub(r'<tool_call>.*?</tool_call>', '', ·, DOTALL)`: remove each
leftmost-minimal wrapped span, continuing after the removed span. -/
def removeWrapped : Nat → List Char → List Char
  | 0, l => l
  | fuel + 1, l =>
    match findSub openTag l with
    | none => l
    | some i =>
        let after := (l.drop i).drop openTag.length
        match findSub closeTag after with
        | none => l
        | some j => l.take i ++ removeWrapped fuel (after.drop (j + closeTag.length))

/-- Index of the last newline in a whitespace run, if any. -/
def lastIdxOfNl : List Char → Option Nat
  | [] => none
  | c :: rest =>
      match lastIdxOfNl rest with
      | some i => some (i + 1)
      | none => if c = '\n' then some 0 else none

/-- The lazy `[^<]*?\}\s*(?:\n|$)` of the second cleaning pattern: find the
first closing brace whose tail matches, consuming the greedily-backtracked
trailing whitespace; returns the input remaining after the match. -/
def resub2Scan : List Char → Option (List Char)
  | [] => none
  | c :: rest =>
      if c = '}' then
        let w := rest.takeWhile pyWsChar
        if w.length = rest.length then some []
        else
          match lastIdxOfNl w with
          | some k => some (rest.drop (k + 1))
          | none => resub2Scan rest
      else if c = '<' then none
      else resub2Scan rest

def resub2At (afterTag : List Char) : Option (List Char) :=
  match afterTag.dropWhile pyWsChar with
  | '{' :: body => resub2Scan body
  | _ => none

/-- Model of `re.sub(r'<tool_call>\s*\{[^<]*?\}\s*(?:\n|$)', '', ·, DOTALL)`. -/
def removeIncomplete : Nat → List Char → List Char
  | 0, l => l
  | fuel + 1, l =>
    match findSub openTag l with
    | none => l
    | some i =>
        let atTag := l.drop i
        match resub2At (atTag.drop openTag.length) with
        | some rest => l.take i ++ removeIncomplete fuel rest
        | none => l.take (i + 1) ++ removeIncomplete fuel (atTag.drop 1)

/-- One attempt of `</?tool_call[^>]*>` at a position starting with `<`. -/
def resub3At : List Char → Option (List Char)
  | '<' :: rest =>
      let rest1 := match rest with
        | '/' :: r => r
        | _ => rest
      if "tool_call".data.isPrefixOf rest1 then
        let rest2 := rest1.drop 9
        let junk := rest2.takeWhile (fun c => c ≠ '>')
        match rest2.drop junk.length with
        | '>' :: r => some r
        | _ => none
      else none
  | _ => none

/-- Model of `re.sub(r'</?tool_call[^>]*>', '', ·)`. -/
def removeTags : Nat → List Char → List Char
  | 0, l => l
  | _ + 1, [] => []
  | fuel + 1, c :: rest =>
      match resub3At (c :: rest) with
      | some r => removeTags fuel r
      | none => c :: removeTags fuel rest

/-- Model of `re.sub(r'\n\s*\n', '\n', ·)`: collapse whitespace-only runs between
newlines (through the last newline of each run, by greedy backtracking). -/
def collapseNl : Nat → List Char → List Char
  | 0, l => l
  | _ + 1, [] => []
  | fuel + 1, c :: rest =>
      if c = '\n' then
        match lastIdxOfNl (rest.takeWhile pyWsChar) with
        | some k => '\n' :: collapseNl fuel (rest.drop (k + 1))
        | none => c :: collapseNl fuel rest
      else c :: collapseNl fuel rest

/-- Lines 402-415: the four cleaning passes and the final strip. -/
def clean_response (s : String) : String :=
  let l1 := removeWrapped (s.length + 1) s.data
  let l2 := removeIncomplete (l1.length + 1) l1
  let l3 := removeTags (l2.length + 1) l2
  let l4 := collapseNl (l3.length + 1) l3
  pyStrip (String.mk l4)

structure ProcessedResponse where
  rtype : String
  content : String
  tool_used : Bool
  tool_call : Option Json
  tool_result : Option Json
deriving Repr, DecidableEq

/-- Model of `ToolManager.process_response_with_tools` (lines 383-425). -/
def process_response_with_tools (tm : ToolManager) (llm_response : String) :
    ProcessedResponse :=
  match parse_tool_call llm_response with
  | none =>
      { rtype := "normal_response", content := llm_response,
        tool_used := false, tool_call := none, tool_result := none }
  | some tool_call =>
      let tool_result := execute_tool_call tm tool_call
      { rtype := "tool_response", content := clean_response llm_response,
        tool_used := true, tool_call := some tool_call,
        tool_result := some tool_result }

/-! ## Conversation memory (`ConversationMemory`, `main.py` lines 28-120)

File logging (`_write_log_header`, `_update_log_file`) is an external side
effect with no influence on the stored turns and is not modelled. -/

structure Turn where
  user : String
  assistant : String
deriving Repr, DecidableEq

structure ConversationMemory where
  max_turns : Int
  turns : List Turn
deriving Repr, DecidableEq

/-- Construction `ConversationMemory(max_turns)`: starts with no turns. -/
def ConversationMemory.init (max_turns : Int) : ConversationMemory :=
  ⟨max_turns, []⟩

/-- Model of `ConversationMemory.add_turn` (lines 79-91): when `max_turns > 0`,
append the new turn and pop the oldest once if the length now exceeds
`max_turns`; otherwise do nothing. -/
def ConversationMemory.add_turn (m : ConversationMemory)
    (user_message assistant_response : String) : ConversationMemory :=
  if m.max_turns > 0 then
    if (((m.turns ++ [Turn.mk user_message assistant_response]).length : Int) >
        m.max_turns) then
      { m with turns := (m.turns ++ [Turn.mk user_message assistant_response]).tail }
    else { m with turns := m.turns ++ [Turn.mk user_message assistant_response] }
  else m

/-- Model of `ConversationMemory.get_history_string` (lines 93-103). -/
def ConversationMemory.get_history_string (m : ConversationMemory) : String :=
  if m.turns = [] then ""
  else
    String.intercalate "\n" (m.turns.foldr
      (fun t acc => ("User: " ++ t.user) :: ("Assistant: " ++ t.assistant) :: acc) [])

/-- Model of `ConversationMemory.clear` (lines 105-116). -/
def ConversationMemory.clear (m : ConversationMemory) : ConversationMemory :=
  { m with turns := [] }

def ConversationMemory.get_turn_count (m : ConversationMemory) : Nat :=
  m.turns.length

/-! ## Gating classifiers

`ActionableClassifier.is_actionable` / `ContextableClassifier.is_contextable`:
the model inference is an external collaborator; both wrappers catch
inference exceptions internally and degrade to a negative verdict, and an
unloaded model (load failure at construction) also degrades. -/

structure GatingClassifier where
  loaded : Bool
  classify : String → Except String (Nat × ℚ)

structure ClassifyOutcome where
  text : String
  prediction : String
  confidence : ℚ
  flag : Bool
deriving Repr, DecidableEq

/-- Model of `ActionableClassifier.is_actionable` with the default threshold 0.5. -/
def is_actionable (c : GatingClassifier) (text : String) : ClassifyOutcome :=
  if !c.loaded then ⟨text, "Non-actionable", 0, false⟩
  else
    match c.classify text with
    | .error _ => ⟨text, "Non-actionable", 0, false⟩
    | .ok (pred, conf) =>
        ⟨text, if pred = 1 then "Actionable" else "Non-actionable", conf,
          pred == 1 && decide ((1 : ℚ)/2 ≤ conf)⟩

/-- Model of `ContextableClassifier.is_contextable` with the default threshold 0.5. -/
def is_contextable (c : GatingClassifier) (text : String) : ClassifyOutcome :=
  if !c.loaded then ⟨text, "Non-contextable", 0, false⟩
  else
    match c.classify text with
    | .error _ => ⟨text, "Non-contextable", 0, false⟩
    | .ok (pred, conf) =>
        ⟨text, if pred = 1 then "Contextable" else "Non-contextable", conf,
          pred == 1 && decide ((1 : ℚ)/2 ≤ conf)⟩

/-! ## The per-turn pipeline (`VoiceAssistant._process_speech`) -/

/-- External collaborators and configuration consulted during a turn.
`Except`-valued collaborators model calls that may raise.  `tools_prompt`
is the constant instruction string `ToolManager.get_tools_prompt()` builds
from the registry; only its identity matters to the pipeline.
`llm_generate user_input tools_prompt` models
`self.llm.generate(user_input, max_tokens, temperature, top_p,
tools_prompt)` (the numeric sampling arguments are fixed configuration). -/
structure Env where
  transcribe : List Int → Except String String
  actionable_classifier : GatingClassifier
  contextable_classifier : GatingClassifier
  retrieve_context : String → Nat → Except String (List String)
  llm_generate : String → String → Except String String
  tool_manager : ToolManager
  add_to_knowledge_base : String → Except String Unit
  tools_prompt : String
  include_history_in_prompt : Bool
  tools_enabled : Bool
  tts_enabled : Bool

/-- Observable collaborator invocations of one turn, in program order. -/
inductive Event where
  | memoryCleared
  | classifyActionable
  | classifyContextable
  | retrieveCtx
  | llmGenerate
  | toolProcess
  | knowledgeAdd
  | speak (text : String)
  | utteranceEmitted
deriving Repr, DecidableEq

structure TurnState where
  conversation_memory : ConversationMemory
  last_transcript : String
  last_response : String
deriving Repr, DecidableEq

/-- Result of one turn: the mutated state, the collaborator-call trace, and
`some e` when an uncaught exception aborted the turn (Python mutations
performed before the raise persist in `state`). -/
structure TurnOutcome where
  state : TurnState
  trace : List Event
  err : Option String
deriving Repr, DecidableEq

def ackResponse : String := "I heard you, but I'm not sure what action to take."

def resetResponse : String := "Conversation memory has been reset."

def refusalMarker : String := "I'm sorry, but I can't provide information"

/-- Python `str.lower()` (ASCII case mapping; the reset phrase and all
transcripts compared case-insensitively are ASCII). -/
def pyLower (s : String) : String := String.mk (s.data.map Char.toLower)

/-- Python `sub in s`. -/
def containsSubstr (s sub : String) : Bool := (findSub sub.data s.data).isSome

/-- Lines 405-410: at least two stored turns and both of the two most
recent assistant responses contain the refusal marker. -/
def refusal_reset_triggered (m : ConversationMemory) : Bool :=
  m.turns.length ≥ 2 &&
    (m.turns.drop (m.turns.length - 2)).all
      (fun t => containsSubstr t.assistant refusalMarker)

def pad32 : String := String.mk (List.replicate 32 ' ')

/-- The `user_input` f-string of lines 443-447. -/
def build_user_input (context_block history_block transcript : String) : String :=
  "Context:\n" ++ pad32 ++ context_block ++ "\n" ++ pad32 ++ history_block ++
    "\n" ++ pad32 ++ "Question:\n" ++ pad32 ++ transcript

/-- The shared tail of a completed turn (lines 499-511): the contextable
side effect, then speech output.  `add_to_knowledge_base` is called
unprotected, so its exception aborts the remainder (the memory update has
already happened). -/
def turn_tail (env : Env) (s : TurnState) (mem2 : ConversationMemory)
    (response : String) (contextable : Bool) (trace : List Event) :
    TurnOutcome :=
  let s1 := { s with conversation_memory := mem2, last_response := response }
  let speakTrace :=
    if env.tts_enabled && response ≠ "" then [Event.speak response] else []
  if contextable then
    match env.add_to_knowledge_base s.last_transcript with
    | .error e =>
        { state := s1, trace := trace ++ [Event.knowledgeAdd], err := some e }
    | .ok _ =>
        { state := s1, trace := trace ++ [Event.knowledgeAdd] ++ speakTrace,
          err := none }
  else
    { state := s1, trace := trace ++ speakTrace, err := none }

/-- The LLM response turned into the spoken response text (lines 464-487):
tool processing when tools are enabled, else the raw response. -/
def response_from_llm (env : Env) (llm_response : String) : String :=
  if env.tools_enabled then
    if (process_response_with_tools env.tool_manager llm_response).tool_used then
      if (process_response_with_tools env.tool_manager llm_response).content ≠ "" then
        (process_response_with_tools env.tool_manager llm_response).content ++
          "\n\n" ++ format_tool_result_for_user
            (((process_response_with_tools env.tool_manager
              llm_response).tool_result).getD Json.null)
      else
        format_tool_result_for_user
          (((process_response_with_tools env.tool_manager
            llm_response).tool_result).getD Json.null)
    else (process_response_with_tools env.tool_manager llm_response).content
  else llm_response

/-- Lines 412-511: the gates and the remainder of the turn, given the
memory `mem1` left by the reset checks.  Retrieval and generation are
called unprotected, so their exceptions surface as `err`. -/
def process_gates (env : Env) (s : TurnState) (mem1 : ConversationMemory) :
    TurnOutcome :=
  if (is_actionable env.actionable_classifier s.last_transcript).flag then
    match env.retrieve_context s.last_transcript 5 with
    | .error e =>
        { state := { s with conversation_memory := mem1 },
          trace := [Event.classifyActionable, Event.classifyContextable,
            Event.retrieveCtx],
          err := some e }
    | .ok contexts =>
        match env.llm_generate
            (build_user_input
              (String.intercalate "\n" (contexts.map (fun ctx => "- " ++ ctx)))
              (if env.include_history_in_prompt then
                (if mem1.get_history_string ≠ "" then
                  "\nConversation History:\n" ++ mem1.get_history_string ++ "\n"
                else "")
              else "")
              s.last_transcript)
            (if env.tools_enabled then env.tools_prompt else "") with
        | .error e =>
            { state := { s with conversation_memory := mem1 },
              trace := [Event.classifyActionable, Event.classifyContextable,
                Event.retrieveCtx, Event.llmGenerate],
              err := some e }
        | .ok llm_response =>
            turn_tail env s
              (mem1.add_turn s.last_transcript (response_from_llm env llm_response))
              (response_from_llm env llm_response)
              (is_contextable env.contextable_classifier s.last_transcript).flag
              ([Event.classifyActionable, Event.classifyContextable,
                Event.retrieveCtx, Event.llmGenerate] ++
                (if env.tools_enabled then [Event.toolProcess] else []))
  else
    turn_tail env s (mem1.add_turn s.last_transcript ackResponse) ackResponse
      (is_contextable env.contextable_classifier s.last_transcript).flag
      [Event.classifyActionable, Event.classifyContextable]

/-- Model of `VoiceAssistant._process_speech` from the point the transcript is
available (lines 389-511): blank-transcript filter, reset command,
refusal auto-reset (whose memory-clear precedes the gates), then the
gates and the rest of the turn. -/
def process_transcript (env : Env) (s : TurnState) : TurnOutcome :=
  if pyStrip s.last_transcript = "" then
    { state := s, trace := [], err := none }
  else if pyLower (pyStrip s.last_transcript) = "reset memory" then
    { state := { s with conversation_memory := s.conversation_memory.clear,
                        last_response := resetResponse },
      trace := Event.memoryCleared ::
        (if env.tts_enabled then [Event.speak resetResponse] else []),
      err := none }
  else if refusal_reset_triggered s.conversation_memory then
    { process_gates env s s.conversation_memory.clear with
      trace := Event.memoryCleared ::
        (process_gates env s s.conversation_memory.clear).trace }
  else process_gates env s s.conversation_memory

/-! ## Speech segmentation (`VoiceAssistant._process_audio_chunk`) -/

/-- One queued audio block: its mono samples, the external VAD verdict
(truthiness of `vad.detect_speech`), and the `time.time()` at which the
consumer processes it. -/
structure AudioChunk where
  samples : List Int
  speech : Bool
  time : ℚ
deriving Repr, DecidableEq

structure AState where
  turn : TurnState
  buffered_audio : List (List Int)
  speech_active : Bool
  last_speech_time : ℚ
deriving Repr, DecidableEq

structure StepOutcome where
  state : AState
  trace : List Event
  err : Option String
deriving Repr, DecidableEq

/-- Model of `VoiceAssistant._process_speech` (lines 373-518) at the audio level:
transcribe the concatenated buffer, run the transcript pipeline, and on
normal completion clear the buffer and the speech flag (an uncaught
exception leaves them untouched — the resets at the end of the method are
never reached). -/
def process_speech (env : Env) (s : AState) : StepOutcome :=
  match env.transcribe s.buffered_audio.flatten with
  | .error e => { state := s, trace := [], err := some e }
  | .ok transcript =>
      let o := process_transcript env { s.turn with last_transcript := transcript }
      match o.err with
      | some e => { state := { s with turn := o.state }, trace := o.trace, err := some e }
      | none =>
          { state := { s with turn := o.state, buffered_audio := [],
                              speech_active := false },
            trace := o.trace, err := none }

/-- Model of `VoiceAssistant._process_audio_chunk` (lines 350-371): a voice-positive
chunk is buffered, activates speech and refreshes the last-speech
timestamp; a silent chunk while active past the 1.0 s hangover triggers
utterance processing; any other chunk changes nothing.
`Event.utteranceEmitted` marks each boundary. -/
def process_audio_chunk (env : Env) (s : AState) (c : AudioChunk) : StepOutcome :=
  if c.speech then
    { state := { s with buffered_audio := s.buffered_audio ++ [c.samples],
                        speech_active := true, last_speech_time := c.time },
      trace := [], err := none }
  else if s.speech_active && decide (c.time - s.last_speech_time > 1) then
    let o := process_speech env s
    { o with trace := Event.utteranceEmitted :: o.trace }
  else
    { state := s, trace := [], err := none }

/-- The consumer loop of `VoiceAssistant.run` (lines 576-592): chunks are
drained in order and processed sequentially; the loop catches only
`KeyboardInterrupt`, so an uncaught exception from a step terminates it
(and the process). -/
def processChunks (env : Env) (s : AState) :
    List AudioChunk → Except String (AState × List Event)
  | [] => .ok (s, [])
  | c :: rest =>
      let o := process_audio_chunk env s c
      match o.err with
      | some e => .error e
      | none =>
          match processChunks env o.state rest with
          | .ok (s', tr) => .ok (s', o.trace ++ tr)
          | .error e => .error e

/-- Hangover-window condition for a chunk sequence: every silent chunk
arrives no more than 1.0 s after the most recent speech chunk (`last`
tracks the evolving last-speech time, starting from the given one). -/
def gapOk : ℚ → List AudioChunk → Bool
  | _, [] => true
  | last, c :: rest =>
      if c.speech then gapOk c.time rest
      else decide (c.time - last ≤ 1) && gapOk last rest

/-! ## Witness fixtures: concrete collaborators and states used by the
witness theorems below. -/

/-- Run a sequence of `add_turn` calls on a freshly constructed memory. -/
def runAddTurns (max_turns : Int) (ops : List (String × String)) :
    ConversationMemory :=
  ops.foldl (fun m op => m.add_turn op.1 op.2) (ConversationMemory.init max_turns)

/-- A tool executor that always raises; stands in for any failing
collaborator implementation in witnesses. -/
def raisingExec : Executor := fun _ => .error "boom"

/-- A classifier that marks every text positive with confidence 0.9. -/
def yesClassifier : GatingClassifier := ⟨true, fun _ => .ok (1, 9/10)⟩

/-- A classifier that marks every text negative with confidence 0.9. -/
def noClassifier : GatingClassifier := ⟨true, fun _ => .ok (0, 9/10)⟩

/-- A concrete collaborator environment for witnesses: the given gating
classifiers, retrieval returning no snippets, a fixed generated reply, the
always-raising tool registry, a knowledge store accepting writes, and TTS
disabled. -/
def witnessEnv (actionable contextable : GatingClassifier) : Env :=
  { transcribe := fun _ => .ok "what is two plus two"
    actionable_classifier := actionable
    contextable_classifier := contextable
    retrieve_context := fun _ _ => .ok []
    llm_generate := fun _ _ => .ok "The answer is 4."
    tool_manager := ToolManager.init raisingExec raisingExec raisingExec false
    add_to_knowledge_base := fun _ => .ok ()
    tools_prompt := "TOOLS"
    include_history_in_prompt := true
    tools_enabled := true
    tts_enabled := false }

/-- The witness environment with a retrieval collaborator that raises. -/
def retrievalFailEnv : Env :=
  { witnessEnv yesClassifier yesClassifier with
    retrieve_context := fun _ _ => .error "retrieval backend offline" }

/-- The active segmentation state used by the C8 witness: one buffered
chunk, last speech observed at time 10. -/
def witnessAState : AState := ⟨⟨⟨5, []⟩, "", ""⟩, [[1, 2]], true, 10⟩

/-- A speech/silence/speech sequence whose silent gap (half a second) is
within the hangover window. -/
def witnessChunks : List AudioChunk :=
  [⟨[3], true, 11⟩, ⟨[], false, 23/2⟩, ⟨[4], true, 12⟩]

/-! ## Theorems -/


theorem add_turn_max_turns (m : ConversationMemory) (u a : String) :
    (m.add_turn u a).max_turns = m.max_turns := by
  unfold ConversationMemory.add_turn
  split
  · split <;> rfl
  · rfl

theorem add_turn_length_le (m : ConversationMemory)
    (h : (m.turns.length : Int) ≤ m.max_turns) (u a : String) :
    ((m.add_turn u a).turns.length : Int) ≤ m.max_turns := by
  unfold ConversationMemory.add_turn
  split
  · split
    · next h2 =>
        simp only [List.tail_append_singleton_of_ne_nil, List.length_tail,
          List.length_append, List.length_singleton]
        omega
    · next h2 =>
        simp only [List.length_append, List.length_singleton] at h2 ⊢
        omega
  · exact h

theorem runAddTurns_inv :
    ∀ (ops : List (String × String)) (m : ConversationMemory),
      (m.turns.length : Int) ≤ m.max_turns →
      ((ops.foldl (fun m op => m.add_turn op.1 op.2) m).max_turns = m.max_turns ∧
        (((ops.foldl (fun m op => m.add_turn op.1 op.2) m).turns.length : Int) ≤
          m.max_turns)) := by
  intro ops
  induction ops with
  | nil => intro m h; exact ⟨rfl, h⟩
  | cons op rest ih =>
      intro m h
      have h1 := add_turn_length_le m h op.1 op.2
      have hmax := add_turn_max_turns m op.1 op.2
      have := ih (m.add_turn op.1 op.2) (hmax ▸ h1)
      simp only [List.foldl_cons]
      exact ⟨this.1.trans hmax, hmax ▸ this.2⟩

theorem add_turn_evict (m : ConversationMemory) (u a : String)
    (hpos : 0 < m.max_turns) (hfull : (m.turns.length : Int) = m.max_turns) :
    (m.add_turn u a).turns = m.turns.tail ++ [⟨u, a⟩] := by
  unfold ConversationMemory.add_turn
  rw [if_pos hpos, if_pos (by simp only [List.length_append, List.length_singleton]; omega)]
  cases hmt : m.turns with
  | nil =>
      rw [hmt] at hfull
      simp only [List.length_nil, Nat.cast_zero] at hfull
      omega
  | cons hd tl => simp

theorem add_turn_append (m : ConversationMemory) (u a : String)
    (hlt : (m.turns.length : Int) < m.max_turns) :
    (m.add_turn u a).turns = m.turns ++ [⟨u, a⟩] := by
  unfold ConversationMemory.add_turn
  rw [if_pos (by omega),
    if_neg (by simp only [List.length_append, List.length_singleton]; omega)]

/-- C2 (amended): for every **nonnegative** `max_turns` and every sequence
of `add_turn` calls on a freshly constructed `ConversationMemory`,
`len(turns) ≤ max_turns` holds after each call, and an `add_turn` at
capacity removes exactly the oldest stored turn (strict FIFO) while one
below capacity appends without eviction.  (Every prefix of a call sequence
is itself a call sequence, so the first conjunct covers "after each
call".) -/
theorem memory_capacity_fifo (max_turns : Int) (h : 0 ≤ max_turns)
    (ops : List (String × String)) :
    ((runAddTurns max_turns ops).turns.length : Int) ≤ max_turns ∧
    (∀ u a, 0 < max_turns →
      ((runAddTurns max_turns ops).turns.length : Int) = max_turns →
      ((runAddTurns max_turns ops).add_turn u a).turns =
        (runAddTurns max_turns ops).turns.tail ++ [⟨u, a⟩]) ∧
    (∀ u a, ((runAddTurns max_turns ops).turns.length : Int) < max_turns →
      ((runAddTurns max_turns ops).add_turn u a).turns =
        (runAddTurns max_turns ops).turns ++ [⟨u, a⟩]) := by
  have hinv := runAddTurns_inv ops (ConversationMemory.init max_turns)
    (by simpa [ConversationMemory.init] using h)
  have hmax : (runAddTurns max_turns ops).max_turns = max_turns := hinv.1
  refine ⟨hinv.2, ?_, ?_⟩
  · intro u a hpos hfull
    exact add_turn_evict _ u a (by rw [hmax]; exact hpos) (by rw [hmax]; exact hfull)
  · intro u a hlt
    exact add_turn_append _ u a (by rw [hmax]; exact hlt)

/-- Witness for C2: a concrete run at capacity 2; the third call evicts
exactly the oldest turn. -/
theorem memory_capacity_fifo_witness :
    ((runAddTurns 2 [("a", "x"), ("b", "y")]).turns.length : Int) ≤ 2 ∧
    ((runAddTurns 2 [("a", "x"), ("b", "y")]).add_turn "c" "z").turns =
      (runAddTurns 2 [("a", "x"), ("b", "y")]).turns.tail ++ [⟨"c", "z"⟩] :=
  ⟨(memory_capacity_fifo 2 (by decide) [("a", "x"), ("b", "y")]).1,
   (memory_capacity_fifo 2 (by decide) [("a", "x"), ("b", "y")]).2.1 "c" "z"
     (by decide) (by decide)⟩

/-- C2 counterexample: the claim quantifies over *any* `max_turns`; with
`max_turns = -1` (a legal Python argument) `add_turn` is a no-op and the
claimed invariant `len(turns) ≤ max_turns` is false after the call
(0 ≤ -1 fails). -/
theorem memory_capacity_counterexample :
    ¬ ((((ConversationMemory.init (-1)).add_turn "hi" "there").turns.length : Int) ≤
        ((ConversationMemory.init (-1)).add_turn "hi" "there").max_turns) := by
  decide

theorem unknown_msg_ne_parse_msg (n : String) :
    ("Unknown tool: " ++ n) ≠ "Could not parse any valid tool call JSON" := by
  intro h
  obtain ⟨d⟩ := n
  have hdata : "Unknown tool: ".data ++ d =
      "Could not parse any valid tool call JSON".data := congrArg String.data h
  have hhead := congrArg List.head? hdata
  simp [List.head?_append] at hhead

/-- C5: dispatching a parsed call whose `tool_name` is not registered
returns the distinct unknown-tool error dict — the result is the same for
every choice of bound executors, i.e. no executor is invoked — and that
dict differs from the parse-error dict; and for every registered tool, an
executor that raises has its exception caught and reported as an
execution-error dict with `success = false` instead of propagating
(`execute_tool_call` is total). -/
theorem dispatch_unknown_and_executor_error (tm : ToolManager) (call : Json)
    (n : String) :
    (call.hasKey "error" = false → call.getKey "tool_name" = some (Json.str n) →
      tm.lookup n = none →
      execute_tool_call tm call =
        Json.obj [("error", Json.str ("Unknown tool: " ++ n))] ∧
      Json.obj [("error", Json.str ("Unknown tool: " ++ n))] ≠ parseErrorDict) ∧
    (∀ (exec : Executor) (e : String),
      call.hasKey "error" = false → call.getKey "tool_name" = some (Json.str n) →
      tm.lookup n = some exec →
      exec ((call.getKey "parameters").getD (Json.obj [])) = .error e →
      execute_tool_call tm call =
        Json.obj [("tool_name", Json.str n),
          ("parameters", (call.getKey "parameters").getD (Json.obj [])),
          ("error", Json.str ("Tool execution error: " ++ e)),
          ("success", Json.bool false)]) := by
  constructor
  · intro herr hname hlook
    refine ⟨?_, ?_⟩
    · unfold execute_tool_call
      rw [herr]
      simp only [Bool.false_eq_true, if_false, hname, hlook]
    · intro h
      simp only [parseErrorDict, Json.obj.injEq, List.cons.injEq, Prod.mk.injEq,
        Json.str.injEq, and_true, true_and] at h
      exact unknown_msg_ne_parse_msg n h
  · intro exec e herr hname hlook hraise
    unfold execute_tool_call
    rw [herr]
    simp only [Bool.false_eq_true, if_false, hname, hlook, hraise]

/-- Witness for C5: a concrete registry; `nonexistent_tool` yields the
unknown-tool dict for any executors, and the registered calculator's
raising executor is caught with `success = false`. -/
theorem dispatch_unknown_and_executor_error_witness :
    (execute_tool_call (ToolManager.init raisingExec raisingExec raisingExec false)
        (Json.obj [("tool_name", Json.str "nonexistent_tool"),
          ("parameters", Json.obj [])]) =
      Json.obj [("error", Json.str ("Unknown tool: " ++ "nonexistent_tool"))] ∧
      Json.obj [("error", Json.str ("Unknown tool: " ++ "nonexistent_tool"))] ≠
        parseErrorDict) ∧
    execute_tool_call (ToolManager.init raisingExec raisingExec raisingExec false)
        (Json.obj [("tool_name", Json.str "calculator"),
          ("parameters", Json.obj [("expression", Json.str "2+2")])]) =
      Json.obj [("tool_name", Json.str "calculator"),
        ("parameters", (((Json.obj [("tool_name", Json.str "calculator"),
          ("parameters", Json.obj [("expression", Json.str "2+2")])]).getKey
            "parameters").getD (Json.obj []))),
        ("error", Json.str ("Tool execution error: " ++ "boom")),
        ("success", Json.bool false)] :=
  ⟨(dispatch_unknown_and_executor_error
      (ToolManager.init raisingExec raisingExec raisingExec false)
      (Json.obj [("tool_name", Json.str "nonexistent_tool"),
        ("parameters", Json.obj [])]) "nonexistent_tool").1
      (by decide) (by decide) rfl,
   (dispatch_unknown_and_executor_error
      (ToolManager.init raisingExec raisingExec raisingExec false)
      (Json.obj [("tool_name", Json.str "calculator"),
        ("parameters", Json.obj [("expression", Json.str "2+2")])]) "calculator").2
      raisingExec "boom" (by decide) (by decide) rfl rfl⟩

/-- C9: whenever extraction yields a span that parses as a JSON object
containing the default tool's recognizable parameter key `expression` but
lacking the `tool_name` wrapper, `parse_tool_call` synthesizes the wrapped
calculator call with the original object as its parameters instead of
reporting a failure. -/
theorem abbreviated_calculator_call_repaired (response s : String)
    (o : List (String × Json))
    (hx : extracted_call_json response = some s)
    (hb1 : (pyStrip s).data.head? = some '{')
    (hb2 : (pyStrip s).data.getLast? = some '}')
    (hparse : jsonLoads (pyStrip s) = some (Json.obj o))
    (hexpr : hasKeyL o "expression" = true)
    (hnoname : hasKeyL o "tool_name" = false) :
    parse_tool_call response =
      some (Json.obj [("tool_name", Json.str "calculator"),
        ("parameters", Json.obj o)]) := by
  unfold parse_tool_call
  rw [hx]
  simp only [candidateJsons, tryCandidates, hb1, hb2, hparse, hexpr, hnoname,
    decide_True, Bool.true_and, Bool.not_false, Bool.and_self, if_true]

/-- Witness for C9: the abbreviated calculator form
`<tool_call>{"expression": "2+2"}</tool_call>` is repaired into a full
calculator call. -/
theorem abbreviated_calculator_call_repaired_witness :
    parse_tool_call "<tool_call>\x7b\"expression\": \"2+2\"\x7d</tool_call>" =
      some (Json.obj [("tool_name", Json.str "calculator"),
        ("parameters", Json.obj [("expression", Json.str "2+2")])]) :=
  abbreviated_calculator_call_repaired
    "<tool_call>\x7b\"expression\": \"2+2\"\x7d</tool_call>"
    "\x7b\"expression\": \"2+2\"\x7d"
    [("expression", Json.str "2+2")]
    (by decide) (by decide) (by decide) (by decide) (by decide) (by decide)

theorem trimChars_eq (l : List Char) :
    trimChars l = (l.dropWhile pyWsChar).rdropWhile pyWsChar := rfl

theorem dropWhile_head_false (p : Char → Bool) :
    ∀ (l : List Char) {c : Char} {r : List Char},
      l.dropWhile p = c :: r → p c = false := by
  intro l
  induction l with
  | nil => intro c r h; simp at h
  | cons x xs ih =>
      intro c r h
      rw [List.dropWhile_cons] at h
      split at h
      · exact ih h
      · next hx =>
          cases h
          simpa using hx

theorem dropWhile_rdropWhile_dropWhile (p : Char → Bool) (l : List Char) :
    ((l.dropWhile p).rdropWhile p).dropWhile p = (l.dropWhile p).rdropWhile p := by
  obtain ⟨t, ht⟩ := List.rdropWhile_prefix p (l.dropWhile p)
  cases hB : (l.dropWhile p).rdropWhile p with
  | nil => rfl
  | cons c bs =>
      rw [hB] at ht
      have hc : p c = false := dropWhile_head_false p l (c := c) (r := bs ++ t) ht.symm
      simp [List.dropWhile_cons, hc]

theorem trimChars_idem (l : List Char) : trimChars (trimChars l) = trimChars l := by
  rw [trimChars_eq, trimChars_eq, dropWhile_rdropWhile_dropWhile]
  unfold List.rdropWhile
  rw [List.reverse_reverse, List.dropWhile_idempotent]

theorem pyStrip_idem (s : String) : pyStrip (pyStrip s) = pyStrip s := by
  unfold pyStrip
  rw [show (String.mk (trimChars s.data)).data = trimChars s.data from rfl,
    trimChars_idem]

/-- C3 counterexample: the response `<tool_call></tool_call>` contains an
opening tool-call marker whose enclosed content (the empty string) cannot
be parsed as well-formed JSON, yet decoding yields `none` — the silent
"no call" result — instead of the claimed parse-error marker. -/
theorem toolparse_error_marker_counterexample :
    parse_tool_call "<tool_call></tool_call>" = none ∧
    jsonLoads "" = none := by
  constructor <;> rfl

theorem tryCandidates_all_fail :
    ∀ (cs : List String), (∀ c ∈ cs, jsonLoads (pyStrip c) = none) →
      tryCandidates cs = parseErrorDict
  | [], _ => rfl
  | c :: rest, h => by
      have hc := h c (by simp)
      have hrest := tryCandidates_all_fail rest (fun x hx => h x (by simp [hx]))
      unfold tryCandidates
      split
      · rw [hc]
        exact hrest
      · exact hrest

/-- C3 (amended): whenever extraction finds a candidate span (so the span
survives the source's falsiness check as a non-empty string) and no
candidate derived from it parses as well-formed JSON, decoding yields the
explicit parse-error dict — distinct from the "no call" result `none` —
and the pipeline surfaces it: the response is treated as a tool response
(not a silent normal response) and the user-facing text is the spoken
tool-error phrase.  When the extracted span is empty (e.g.
`<tool_call></tool_call>`) or no pattern matches at all (e.g. an opening
marker followed by plain prose), the source instead returns the silent
`none` — see the counterexample. -/
theorem toolparse_error_marker (response s : String) (tm : ToolManager)
    (hx : extracted_call_json response = some s)
    (hfail : ∀ c ∈ candidateJsons s, jsonLoads (pyStrip c) = none) :
    parse_tool_call response = some parseErrorDict ∧
    (process_response_with_tools tm response).tool_used = true ∧
    (process_response_with_tools tm response).tool_result =
      some parseErrorDict ∧
    format_tool_result_for_user (execute_tool_call tm parseErrorDict) =
      "❌ Tool Error: Could not parse any valid tool call JSON" := by
  have hp : parse_tool_call response = some parseErrorDict := by
    unfold parse_tool_call
    rw [hx]
    show some (tryCandidates (candidateJsons s)) = some parseErrorDict
    rw [tryCandidates_all_fail _ hfail]
  refine ⟨hp, ?_, ?_, rfl⟩
  · unfold process_response_with_tools
    rw [hp]
  · unfold process_response_with_tools
    rw [hp]
    show some (execute_tool_call tm parseErrorDict) = some parseErrorDict
    rfl

/-- Witness for C3: a wrapped span of unparseable JSON yields the
parse-error dict and the spoken tool error. -/
theorem toolparse_error_marker_witness :
    parse_tool_call "<tool_call>\x7bbad json\x7d</tool_call>" =
      some parseErrorDict ∧
    (process_response_with_tools
        (ToolManager.init raisingExec raisingExec raisingExec false)
        "<tool_call>\x7bbad json\x7d</tool_call>").tool_used = true ∧
    (process_response_with_tools
        (ToolManager.init raisingExec raisingExec raisingExec false)
        "<tool_call>\x7bbad json\x7d</tool_call>").tool_result =
      some parseErrorDict ∧
    format_tool_result_for_user
        (execute_tool_call (ToolManager.init raisingExec raisingExec raisingExec false)
          parseErrorDict) =
      "❌ Tool Error: Could not parse any valid tool call JSON" :=
  toolparse_error_marker "<tool_call>\x7bbad json\x7d</tool_call>"
    "\x7bbad json\x7d" (ToolManager.init raisingExec raisingExec raisingExec false)
    (by decide) (by decide)

theorem findSub_append_left (pat : List Char) (c0 : Char)
    (hc0 : pat.head? = some c0) :
    ∀ (a b : List Char), c0 ∉ a →
      findSub pat (a ++ b) = (findSub pat b).map (· + a.length) := by
  intro a
  induction a with
  | nil =>
      intro b _
      simp only [List.nil_append, List.length_nil]
      cases findSub pat b <;> simp
  | cons x xs ih =>
      intro b hx
      have hxne : c0 ≠ x := fun h => hx (h ▸ List.mem_cons_self x xs)
      have hnp : pat.isPrefixOf (x :: (xs ++ b)) = false := by
        cases pat with
        | nil => simp at hc0
        | cons p ps =>
            have hp : p = c0 := by simpa using hc0
            subst hp
            show (p :: ps).isPrefixOf (x :: (xs ++ b)) = false
            simp only [List.isPrefixOf]
            rw [beq_eq_false_iff_ne.mpr hxne, Bool.false_and]
      rw [List.cons_append]
      show (if pat.isPrefixOf (x :: (xs ++ b)) = true then some 0
        else (findSub pat (xs ++ b)).map (· + 1)) = _
      rw [hnp]
      simp only [Bool.false_eq_true, if_false, ih b (fun h => hx (List.mem_cons_of_mem x h))]
      cases findSub pat b with
      | none => simp
      | some v => simp [List.length_cons]; omega

theorem findSub_self_append (pat b : List Char) (hne : pat ≠ []) :
    findSub pat (pat ++ b) = some 0 := by
  cases pat with
  | nil => exact absurd rfl hne
  | cons p ps =>
      rw [List.cons_append]
      show (if (p :: ps).isPrefixOf (p :: (ps ++ b)) = true then some 0
        else (findSub (p :: ps) (ps ++ b)).map (· + 1)) = some 0
      rw [if_pos]
      rw [ List.isPrefixOf_iff_prefix]
      exact ⟨b, by simp⟩

theorem pat1_wrapped (pre j1 rest : List Char)
    (hpre : '<' ∉ pre) (hj1 : '<' ∉ j1) :
    pat1 (pre ++ (openTag ++ (j1 ++ (closeTag ++ rest)))) =
      some (trimChars j1) := by
  unfold pat1
  rw [findSub_append_left openTag '<' rfl pre _ hpre,
    findSub_self_append _ _ (by decide)]
  show (match some (0 + pre.length) with
    | none => none
    | some i =>
        match findSub closeTag
          (((pre ++ (openTag ++ (j1 ++ (closeTag ++ rest)))).drop i).drop
            openTag.length) with
        | none => none
        | some j =>
            some (trimChars
              ((((pre ++ (openTag ++ (j1 ++ (closeTag ++ rest)))).drop i).drop
                openTag.length).take j))) = some (trimChars j1)
  have hdrop : ((pre ++ (openTag ++ (j1 ++ (closeTag ++ rest)))).drop
      (0 + pre.length)).drop openTag.length = j1 ++ (closeTag ++ rest) := by
    rw [Nat.zero_add, List.drop_left, List.drop_left]
  simp only [hdrop]
  rw [findSub_append_left closeTag '<' rfl j1 _ hj1,
    findSub_self_append _ _ (by decide)]
  simp only [Option.map_some', Nat.zero_add]
  rw [List.take_left]

theorem extracted_wrapped (pre j1 rest : String)
    (hpre : '<' ∉ pre.data) (hj1 : '<' ∉ j1.data)
    (hne : trimChars j1.data ≠ []) :
    extracted_call_json (pre ++ "<tool_call>" ++ j1 ++ "</tool_call>" ++ rest) =
      some (pyStrip j1) := by
  have hdata : (pre ++ "<tool_call>" ++ j1 ++ "</tool_call>" ++ rest).data =
      pre.data ++ (openTag ++ (j1.data ++ (closeTag ++ rest.data))) := by
    obtain ⟨a⟩ := pre
    obtain ⟨b⟩ := j1
    obtain ⟨c⟩ := rest
    show (((a ++ openTag) ++ b) ++ closeTag) ++ c = _
    simp [List.append_assoc]
  have hpg : patternsGroup (pre.data ++ (openTag ++ (j1.data ++
      (closeTag ++ rest.data)))) = some (trimChars j1.data) := by
    unfold patternsGroup
    rw [pat1_wrapped _ _ _ hpre hj1]
  unfold extracted_call_json
  rw [hdata, hpg]
  simp only [Option.map_some', trimChars_idem]
  rw [if_neg hne]
  rfl

/-- C4 (amended): `parse_tool_call` honors only the first call, in the two
decodable concatenation shapes: (a) when the response is prose without
`<`, then a complete marker-wrapped call whose JSON text contains no `<`,
then arbitrary text (which may contain further wrapped calls), the parsed
result is exactly that first call; (b) when one extracted span holds two
calls joined by `" and "` and the span as a whole (and its `" 和 "` prefix)
is not valid JSON while the prefix before `" and "` is a well-formed call,
exactly that first call results.  Two *bare* (unwrapped) calls joined by
`" and "` on one line are instead rejected as no call — see the
counterexample. -/
theorem first_call_only (pre j1 rest response s : String)
    (o o2 : List (String × Json)) :
    (('<' ∉ pre.data) → ('<' ∉ j1.data) →
      (pyStrip j1).data.head? = some '{' →
      (pyStrip j1).data.getLast? = some '}' →
      jsonLoads (pyStrip j1) = some (Json.obj o) →
      hasKeyL o "tool_name" = true → hasKeyL o "parameters" = true →
      parse_tool_call (pre ++ "<tool_call>" ++ j1 ++ "</tool_call>" ++ rest) =
        some (Json.obj o)) ∧
    (extracted_call_json response = some s →
      jsonLoads (pyStrip s) = none →
      jsonLoads (pyStrip (splitHead s " 和 ")) = none →
      (pyStrip (splitHead s " and ")).data.head? = some '{' →
      (pyStrip (splitHead s " and ")).data.getLast? = some '}' →
      jsonLoads (pyStrip (splitHead s " and ")) = some (Json.obj o2) →
      hasKeyL o2 "tool_name" = true → hasKeyL o2 "parameters" = true →
      parse_tool_call response = some (Json.obj o2)) := by
  constructor
  · intro hpre hj1 hb1 hb2 hparse hname hparams
    have hne : trimChars j1.data ≠ [] := by
      intro h
      rw [show (pyStrip j1).data = trimChars j1.data from rfl, h] at hb1
      simp at hb1
    unfold parse_tool_call
    rw [extracted_wrapped pre j1 rest hpre hj1 hne]
    show some (tryCandidates (candidateJsons (pyStrip j1))) = some (Json.obj o)
    simp only [candidateJsons, tryCandidates, pyStrip_idem, hb1, hb2, hparse,
      hname, hparams, decide_True, Bool.true_and, Bool.and_self, if_true,
      Bool.not_true, Bool.false_or, Bool.or_self, Bool.and_false,
      Bool.false_eq_true, if_false]
  · intro hx h0 hzh hb1 hb2 hand hname hparams
    unfold parse_tool_call
    rw [hx]
    show some (tryCandidates (candidateJsons s)) = some (Json.obj o2)
    unfold candidateJsons tryCandidates
    split
    · rw [h0]
      unfold tryCandidates
      split
      · rw [hzh]
        unfold tryCandidates
        rw [if_pos (by rw [hb1, hb2]; simp)]
        rw [hand]
        simp only [hname, hparams, Bool.not_true, Bool.and_false,
          Bool.false_eq_true, if_false, Bool.or_self]
      · unfold tryCandidates
        rw [if_pos (by rw [hb1, hb2]; simp)]
        rw [hand]
        simp only [hname, hparams, Bool.not_true, Bool.and_false,
          Bool.false_eq_true, if_false, Bool.or_self]
    · unfold tryCandidates
      split
      · rw [hzh]
        unfold tryCandidates
        rw [if_pos (by rw [hb1, hb2]; simp)]
        rw [hand]
        simp only [hname, hparams, Bool.not_true, Bool.and_false,
          Bool.false_eq_true, if_false, Bool.or_self]
      · unfold tryCandidates
        rw [if_pos (by rw [hb1, hb2]; simp)]
        rw [hand]
        simp only [hname, hparams, Bool.not_true, Bool.and_false,
          Bool.false_eq_true, if_false, Bool.or_self]

/-- Witness for C4: (a) two separately wrapped calls — the weather call in
the trailing text is ignored and exactly the calculator call results;
(b) two calls joined by `" and "` inside one wrapper — exactly the first
results. -/
theorem first_call_only_witness :
    parse_tool_call ("" ++ "<tool_call>" ++
        "\x7b\"tool_name\": \"calculator\", \"parameters\": \x7b\"expression\": \"2 + 2\"\x7d\x7d" ++
        "</tool_call>" ++
        " and <tool_call>\x7b\"tool_name\": \"weather_checker\", \"parameters\": \x7b\"location\": \"P\"\x7d\x7d</tool_call>") =
      some (Json.obj [("tool_name", Json.str "calculator"),
        ("parameters", Json.obj [("expression", Json.str "2 + 2")])]) ∧
    parse_tool_call
        "<tool_call>\x7b\"tool_name\": \"c\", \"parameters\": \x7b\"e\": \"1\"\x7d\x7d and \x7b\"tool_name\": \"d\", \"parameters\": \x7b\x7d\x7d</tool_call>" =
      some (Json.obj [("tool_name", Json.str "c"),
        ("parameters", Json.obj [("e", Json.str "1")])]) :=
  ⟨(first_call_only ""
      "\x7b\"tool_name\": \"calculator\", \"parameters\": \x7b\"expression\": \"2 + 2\"\x7d\x7d"
      " and <tool_call>\x7b\"tool_name\": \"weather_checker\", \"parameters\": \x7b\"location\": \"P\"\x7d\x7d</tool_call>"
      "" "" [("tool_name", Json.str "calculator"),
        ("parameters", Json.obj [("expression", Json.str "2 + 2")])] []).1
      (by decide) (by decide) (by decide) (by decide) (by decide) (by decide)
      (by decide),
   (first_call_only "" "" ""
      "<tool_call>\x7b\"tool_name\": \"c\", \"parameters\": \x7b\"e\": \"1\"\x7d\x7d and \x7b\"tool_name\": \"d\", \"parameters\": \x7b\x7d\x7d</tool_call>"
      "\x7b\"tool_name\": \"c\", \"parameters\": \x7b\"e\": \"1\"\x7d\x7d and \x7b\"tool_name\": \"d\", \"parameters\": \x7b\x7d\x7d"
      [] [("tool_name", Json.str "c"),
        ("parameters", Json.obj [("e", Json.str "1")])]).2
      (by decide) (by decide) (by decide) (by decide) (by decide) (by decide)
      (by decide) (by decide)⟩

/-- C4 counterexample: two well-formed bare (unwrapped) calls concatenated
with `" and "` — the claim requires exactly the first call, but
`parse_tool_call` returns `none` (no call at all): the bare-JSON pattern
requires the call to span a whole line.  The second conjunct shows the
first call on its own is well-formed. -/
theorem first_call_only_counterexample :
    parse_tool_call
        "\x7b\"tool_name\": \"calculator\", \"parameters\": \x7b\"expression\": \"2+2\"\x7d\x7d and \x7b\"tool_name\": \"weather_checker\", \"parameters\": \x7b\"location\": \"Paris\"\x7d\x7d" =
      none ∧
    jsonLoads "\x7b\"tool_name\": \"calculator\", \"parameters\": \x7b\"expression\": \"2+2\"\x7d\x7d" =
      some (Json.obj [("tool_name", Json.str "calculator"),
        ("parameters", Json.obj [("expression", Json.str "2+2")])]) := by
  constructor
  · rfl
  · rfl

theorem turn_tail_anatomy (env : Env) (s : TurnState)
    (mem2 : ConversationMemory) (response : String) (ctx : Bool)
    (trace : List Event) :
    (turn_tail env s mem2 response ctx trace).state.last_response = response ∧
    (turn_tail env s mem2 response ctx trace).state.conversation_memory = mem2 ∧
    (turn_tail env s mem2 response ctx trace).state.last_transcript =
      s.last_transcript ∧
    (∃ ext, (turn_tail env s mem2 response ctx trace).trace = trace ++ ext ∧
      ∀ ev ∈ ext, ev = Event.knowledgeAdd ∨ ev = Event.speak response) := by
  unfold turn_tail
  by_cases hc : ctx = true
  · rw [if_pos hc]
    cases hk : env.add_to_knowledge_base s.last_transcript with
    | error e =>
        refine ⟨rfl, rfl, rfl, [Event.knowledgeAdd], rfl, ?_⟩
        intro ev hev
        simp only [List.mem_singleton] at hev
        exact Or.inl hev
    | ok u =>
        refine ⟨rfl, rfl, rfl,
          [Event.knowledgeAdd] ++
            (if env.tts_enabled && response ≠ "" then [Event.speak response]
              else []), by simp, ?_⟩
        intro ev hev
        simp only [List.mem_append, List.mem_singleton] at hev
        rcases hev with h | h
        · exact Or.inl h
        · split at h
          · simp only [List.mem_singleton] at h
            exact Or.inr h
          · simp at h
  · rw [if_neg hc]
    refine ⟨rfl, rfl, rfl,
      (if env.tts_enabled && response ≠ "" then [Event.speak response] else []),
      rfl, ?_⟩
    intro ev hev
    split at hev
    · simp only [List.mem_singleton] at hev
      exact Or.inr hev
    · simp at hev

theorem process_gates_non_actionable (env : Env) (s : TurnState)
    (mem1 : ConversationMemory)
    (hact : (is_actionable env.actionable_classifier s.last_transcript).flag =
      false) :
    (process_gates env s mem1).state.last_response = ackResponse ∧
    (process_gates env s mem1).state.conversation_memory =
      mem1.add_turn s.last_transcript ackResponse ∧
    Event.llmGenerate ∉ (process_gates env s mem1).trace ∧
    Event.retrieveCtx ∉ (process_gates env s mem1).trace := by
  unfold process_gates
  rw [hact]
  simp only [Bool.false_eq_true, if_false]
  obtain ⟨h1, h2, h3, ext, hext, hev⟩ := turn_tail_anatomy env s
    (mem1.add_turn s.last_transcript ackResponse) ackResponse
    (is_contextable env.contextable_classifier s.last_transcript).flag
    [Event.classifyActionable, Event.classifyContextable]
  refine ⟨h1, h2, ?_, ?_⟩
  · rw [hext]
    intro hmem
    rcases List.mem_append.mp hmem with h | h
    · simp at h
    · rcases hev _ h with h' | h' <;> simp at h'
  · rw [hext]
    intro hmem
    rcases List.mem_append.mp hmem with h | h
    · simp at h
    · rcases hev _ h with h' | h' <;> simp at h'

/-- C6: for every non-empty, non-reset transcript classified as not
actionable, the turn short-circuits with the fixed acknowledgment string,
the generation backend is never invoked (no generation — nor retrieval —
event appears in the turn's trace), and the pair
{transcript, acknowledgment} is still appended to Turn Memory (to the
memory left by the refusal auto-reset check). -/
theorem non_actionable_acknowledged (env : Env) (s : TurnState)
    (hne : pyStrip s.last_transcript ≠ "")
    (hnr : pyLower (pyStrip s.last_transcript) ≠ "reset memory")
    (hact : (is_actionable env.actionable_classifier s.last_transcript).flag =
      false) :
    (process_transcript env s).state.last_response = ackResponse ∧
    Event.llmGenerate ∉ (process_transcript env s).trace ∧
    Event.retrieveCtx ∉ (process_transcript env s).trace ∧
    (process_transcript env s).state.conversation_memory =
      (if refusal_reset_triggered s.conversation_memory then
        s.conversation_memory.clear
      else s.conversation_memory).add_turn s.last_transcript ackResponse := by
  unfold process_transcript
  rw [if_neg hne, if_neg hnr]
  by_cases hrr : refusal_reset_triggered s.conversation_memory
  · rw [if_pos hrr, if_pos hrr]
    obtain ⟨h1, h2, h3, h4⟩ :=
      process_gates_non_actionable env s s.conversation_memory.clear hact
    refine ⟨h1, ?_, ?_, h2⟩
    · intro hmem
      simp only [List.mem_cons] at hmem
      rcases hmem with h | h
      · simp at h
      · exact h3 h
    · intro hmem
      simp only [List.mem_cons] at hmem
      rcases hmem with h | h
      · simp at h
      · exact h4 h
  · rw [if_neg hrr, if_neg hrr]
    obtain ⟨h1, h2, h3, h4⟩ :=
      process_gates_non_actionable env s s.conversation_memory hact
    exact ⟨h1, h3, h4, h2⟩

/-- C7: every transcript that trims and lowercases to "reset memory"
clears Turn Memory (leaving it empty, capacity unchanged), sets the fixed
confirmation string as the response, completes the turn, and performs no
classification, retrieval, or generation call. -/
theorem reset_command_short_circuit (env : Env) (s : TurnState)
    (h : pyLower (pyStrip s.last_transcript) = "reset memory") :
    (process_transcript env s).state.conversation_memory.turns = [] ∧
    (process_transcript env s).state.conversation_memory.max_turns =
      s.conversation_memory.max_turns ∧
    (process_transcript env s).state.last_response = resetResponse ∧
    (process_transcript env s).err = none ∧
    Event.classifyActionable ∉ (process_transcript env s).trace ∧
    Event.classifyContextable ∉ (process_transcript env s).trace ∧
    Event.retrieveCtx ∉ (process_transcript env s).trace ∧
    Event.llmGenerate ∉ (process_transcript env s).trace := by
  have hne : ¬(pyStrip s.last_transcript = "") := by
    intro h0
    rw [h0] at h
    exact absurd h (by decide)
  unfold process_transcript
  rw [if_neg hne, if_pos h]
  refine ⟨rfl, rfl, rfl, rfl, ?_, ?_, ?_, ?_⟩ <;>
    · intro hmem
      simp only [List.mem_cons] at hmem
      rcases hmem with h' | h'
      · simp at h'
      · split at h' <;> simp at h'

/-- Witness for C6: "nice weather today" judged non-actionable — fixed
acknowledgment, no generation or retrieval event, turn appended. -/
theorem non_actionable_acknowledged_witness :
    (process_transcript (witnessEnv noClassifier noClassifier)
      ⟨⟨5, []⟩, "nice weather today", ""⟩).state.last_response = ackResponse ∧
    Event.llmGenerate ∉ (process_transcript (witnessEnv noClassifier noClassifier)
      ⟨⟨5, []⟩, "nice weather today", ""⟩).trace ∧
    Event.retrieveCtx ∉ (process_transcript (witnessEnv noClassifier noClassifier)
      ⟨⟨5, []⟩, "nice weather today", ""⟩).trace ∧
    (process_transcript (witnessEnv noClassifier noClassifier)
      ⟨⟨5, []⟩, "nice weather today", ""⟩).state.conversation_memory =
      (if refusal_reset_triggered (⟨5, []⟩ : ConversationMemory) then
        (⟨5, []⟩ : ConversationMemory).clear
      else (⟨5, []⟩ : ConversationMemory)).add_turn "nice weather today"
        ackResponse :=
  non_actionable_acknowledged (witnessEnv noClassifier noClassifier)
    ⟨⟨5, []⟩, "nice weather today", ""⟩ (by decide) (by decide) (by decide)

/-- Witness for C7: `"  Reset MEMORY  "` (odd case and whitespace) resets
a memory holding one turn. -/
theorem reset_command_short_circuit_witness :
    (process_transcript (witnessEnv yesClassifier yesClassifier)
      ⟨⟨5, [⟨"a", "b"⟩]⟩, "  Reset MEMORY  ", ""⟩).state.conversation_memory.turns
        = [] ∧
    (process_transcript (witnessEnv yesClassifier yesClassifier)
      ⟨⟨5, [⟨"a", "b"⟩]⟩, "  Reset MEMORY  ", ""⟩).state.conversation_memory.max_turns
        = (⟨5, [⟨"a", "b"⟩]⟩ : ConversationMemory).max_turns ∧
    (process_transcript (witnessEnv yesClassifier yesClassifier)
      ⟨⟨5, [⟨"a", "b"⟩]⟩, "  Reset MEMORY  ", ""⟩).state.last_response =
        resetResponse ∧
    (process_transcript (witnessEnv yesClassifier yesClassifier)
      ⟨⟨5, [⟨"a", "b"⟩]⟩, "  Reset MEMORY  ", ""⟩).err = none ∧
    Event.classifyActionable ∉ (process_transcript (witnessEnv yesClassifier
      yesClassifier) ⟨⟨5, [⟨"a", "b"⟩]⟩, "  Reset MEMORY  ", ""⟩).trace ∧
    Event.classifyContextable ∉ (process_transcript (witnessEnv yesClassifier
      yesClassifier) ⟨⟨5, [⟨"a", "b"⟩]⟩, "  Reset MEMORY  ", ""⟩).trace ∧
    Event.retrieveCtx ∉ (process_transcript (witnessEnv yesClassifier
      yesClassifier) ⟨⟨5, [⟨"a", "b"⟩]⟩, "  Reset MEMORY  ", ""⟩).trace ∧
    Event.llmGenerate ∉ (process_transcript (witnessEnv yesClassifier
      yesClassifier) ⟨⟨5, [⟨"a", "b"⟩]⟩, "  Reset MEMORY  ", ""⟩).trace :=
  reset_command_short_circuit (witnessEnv yesClassifier yesClassifier)
    ⟨⟨5, [⟨"a", "b"⟩]⟩, "  Reset MEMORY  ", ""⟩ (by decide)

theorem refusal_reset_clear (m : ConversationMemory) :
    refusal_reset_triggered m.clear = false := by
  simp [refusal_reset_triggered, ConversationMemory.clear]

theorem process_gates_mem_congr (env : Env) (s : TurnState)
    (m0 mem1 : ConversationMemory) :
    process_gates env { s with conversation_memory := m0 } mem1 =
      process_gates env s mem1 := by
  obtain ⟨m, t, r⟩ := s
  rfl

theorem process_gates_trace_shape (env : Env) (s : TurnState)
    (mem1 : ConversationMemory) :
    ∃ ext, (process_gates env s mem1).trace =
      Event.classifyActionable :: Event.classifyContextable :: ext := by
  unfold process_gates
  by_cases hact :
      (is_actionable env.actionable_classifier s.last_transcript).flag = true
  · rw [hact]
    simp only [if_true]
    cases hr : env.retrieve_context s.last_transcript 5 with
    | error e => exact ⟨[Event.retrieveCtx], rfl⟩
    | ok contexts =>
        dsimp only
        cases hg : env.llm_generate
            (build_user_input
              (String.intercalate "\n" (contexts.map (fun ctx => "- " ++ ctx)))
              (if env.include_history_in_prompt then
                (if mem1.get_history_string ≠ "" then
                  "\nConversation History:\n" ++ mem1.get_history_string ++ "\n"
                else "")
              else "")
              s.last_transcript)
            (if env.tools_enabled then env.tools_prompt else "") with
        | error e => exact ⟨[Event.retrieveCtx, Event.llmGenerate], rfl⟩
        | ok llm_response =>
            obtain ⟨_, _, _, ext, hext, _⟩ := turn_tail_anatomy env s
              (mem1.add_turn s.last_transcript (response_from_llm env llm_response))
              (response_from_llm env llm_response)
              (is_contextable env.contextable_classifier s.last_transcript).flag
              ([Event.classifyActionable, Event.classifyContextable,
                Event.retrieveCtx, Event.llmGenerate] ++
                (if env.tools_enabled then [Event.toolProcess] else []))
            refine ⟨([Event.retrieveCtx, Event.llmGenerate] ++
              (if env.tools_enabled then [Event.toolProcess] else [])) ++ ext, ?_⟩
            rw [hext]
            simp
  · rw [Bool.not_eq_true] at hact
    rw [hact]
    simp only [Bool.false_eq_true, if_false]
    obtain ⟨_, _, _, ext, hext, _⟩ := turn_tail_anatomy env s
      (mem1.add_turn s.last_transcript ackResponse) ackResponse
      (is_contextable env.contextable_classifier s.last_transcript).flag
      [Event.classifyActionable, Event.classifyContextable]
    exact ⟨ext, hext⟩

/-- C10: while Turn Memory holds at least two turns whose two most recent
assistant responses both contain the refusal substring, processing any
non-empty, non-reset transcript clears the entire Turn Memory *before*
the actionable/contextable gates: the whole outcome equals the outcome on
the emptied memory with the memory-clear event prepended, and the trace
begins with the clear followed by the two gate classifications. -/
theorem refusal_auto_reset (env : Env) (s : TurnState)
    (hne : pyStrip s.last_transcript ≠ "")
    (hnr : pyLower (pyStrip s.last_transcript) ≠ "reset memory")
    (hlen : 2 ≤ s.conversation_memory.turns.length)
    (hall : ∀ t ∈ s.conversation_memory.turns.drop
      (s.conversation_memory.turns.length - 2),
      containsSubstr t.assistant refusalMarker = true) :
    process_transcript env s =
      { process_transcript env
          { s with conversation_memory := s.conversation_memory.clear } with
        trace := Event.memoryCleared ::
          (process_transcript env
            { s with conversation_memory := s.conversation_memory.clear }).trace } ∧
    (∃ ext, (process_transcript env s).trace =
      Event.memoryCleared :: Event.classifyActionable ::
        Event.classifyContextable :: ext) := by
  have hcond : refusal_reset_triggered s.conversation_memory = true := by
    unfold refusal_reset_triggered
    rw [Bool.and_eq_true, List.all_eq_true]
    exact ⟨by simpa using hlen, hall⟩
  obtain ⟨m, t, r⟩ := s
  have hpg : process_transcript env ⟨m.clear, t, r⟩ =
      process_gates env ⟨m, t, r⟩ m.clear := by
    unfold process_transcript
    rw [if_neg hne, if_neg hnr]
    rw [show (⟨m.clear, t, r⟩ : TurnState).conversation_memory = m.clear from rfl,
      refusal_reset_clear m]
    simp only [Bool.false_eq_true, if_false]
    exact process_gates_mem_congr env ⟨m, t, r⟩ m.clear m.clear
  have hlhs : process_transcript env ⟨m, t, r⟩ =
      { process_gates env ⟨m, t, r⟩ m.clear with
        trace := Event.memoryCleared ::
          (process_gates env ⟨m, t, r⟩ m.clear).trace } := by
    unfold process_transcript
    rw [if_neg hne, if_neg hnr]
    rw [show (⟨m, t, r⟩ : TurnState).conversation_memory = m from rfl, hcond]
    simp only [if_true]
  constructor
  · rw [hlhs]
    show _ = { process_transcript env ⟨m.clear, t, r⟩ with
      trace := Event.memoryCleared ::
        (process_transcript env ⟨m.clear, t, r⟩).trace }
    rw [hpg]
  · obtain ⟨ext, hext⟩ := process_gates_trace_shape env ⟨m, t, r⟩ m.clear
    refine ⟨ext, ?_⟩
    rw [hlhs]
    show Event.memoryCleared :: (process_gates env ⟨m, t, r⟩ m.clear).trace = _
    rw [hext]

/-- Witness for C10: two stored turns whose assistant responses are the
refusal text; processing "hello there" clears the memory first. -/
theorem refusal_auto_reset_witness :
    process_transcript (witnessEnv noClassifier noClassifier)
        ⟨⟨5, [⟨"q1", refusalMarker⟩, ⟨"q2", refusalMarker⟩]⟩, "hello there", ""⟩ =
      { process_transcript (witnessEnv noClassifier noClassifier)
          { (⟨⟨5, [⟨"q1", refusalMarker⟩, ⟨"q2", refusalMarker⟩]⟩, "hello there",
              ""⟩ : TurnState) with
            conversation_memory :=
              (⟨5, [⟨"q1", refusalMarker⟩, ⟨"q2", refusalMarker⟩]⟩ :
                ConversationMemory).clear } with
        trace := Event.memoryCleared ::
          (process_transcript (witnessEnv noClassifier noClassifier)
            { (⟨⟨5, [⟨"q1", refusalMarker⟩, ⟨"q2", refusalMarker⟩]⟩,
                "hello there", ""⟩ : TurnState) with
              conversation_memory :=
                (⟨5, [⟨"q1", refusalMarker⟩, ⟨"q2", refusalMarker⟩]⟩ :
                  ConversationMemory).clear }).trace } ∧
    (∃ ext, (process_transcript (witnessEnv noClassifier noClassifier)
        ⟨⟨5, [⟨"q1", refusalMarker⟩, ⟨"q2", refusalMarker⟩]⟩, "hello there",
          ""⟩).trace =
      Event.memoryCleared :: Event.classifyActionable ::
        Event.classifyContextable :: ext) :=
  refusal_auto_reset (witnessEnv noClassifier noClassifier)
    ⟨⟨5, [⟨"q1", refusalMarker⟩, ⟨"q2", refusalMarker⟩]⟩, "hello there", ""⟩
    (by decide) (by decide) (by decide) (by decide)

theorem processChunks_gapOk (env : Env) :
    ∀ (chunks : List AudioChunk) (s : AState), s.speech_active = true →
      gapOk s.last_speech_time chunks = true →
      ∃ s', processChunks env s chunks = .ok (s', []) ∧
        s'.speech_active = true ∧ s'.turn = s.turn ∧
        s'.buffered_audio = s.buffered_audio ++
          ((chunks.filter (fun c => c.speech)).map (fun c => c.samples))
  | [], s, ha, _ => ⟨s, rfl, ha, rfl, by simp⟩
  | c :: rest, s, ha, hgap => by
      unfold gapOk at hgap
      by_cases hc : c.speech = true
      · rw [if_pos hc] at hgap
        have step : process_audio_chunk env s c =
            ⟨⟨s.turn, s.buffered_audio ++ [c.samples], true, c.time⟩, [], none⟩ := by
          unfold process_audio_chunk
          rw [hc]
          simp only [if_true]
        obtain ⟨s', hrun, ha', ht', hb'⟩ := processChunks_gapOk env rest
          ⟨s.turn, s.buffered_audio ++ [c.samples], true, c.time⟩ rfl hgap
        refine ⟨s', ?_, ha', ht', ?_⟩
        · unfold processChunks
          rw [step]
          simp only [hrun]
          rfl
        · rw [hb']
          simp [hc]
      · rw [Bool.not_eq_true] at hc
        rw [if_neg (by rw [hc]; exact Bool.false_ne_true)] at hgap
        rw [Bool.and_eq_true, decide_eq_true_eq] at hgap
        have step : process_audio_chunk env s c = { state := s, trace := [], err := none } := by
          unfold process_audio_chunk
          rw [hc]
          simp only [Bool.false_eq_true, if_false]
          rw [if_neg]
          intro hcon
          rw [Bool.and_eq_true, decide_eq_true_eq] at hcon
          exact absurd hcon.2 (not_lt.mpr hgap.1)
        obtain ⟨s', hrun, ha', ht', hb'⟩ := processChunks_gapOk env rest s ha hgap.2
        refine ⟨s', ?_, ha', ht', ?_⟩
        · unfold processChunks
          rw [step]
          simp only [hrun]
          rfl
        · rw [hb']
          simp [hc]

/-- C8: while the machine is ACTIVE, a silent chunk within the 1.0 s
hangover window leaves the state exactly as it was — nothing is buffered,
the last-speech timestamp is not reset, and no utterance processing is
triggered; consequently, over any chunk sequence whose silent chunks all
fall within the hangover window of the most recent speech chunk, the
machine emits no utterance boundary at all (the trace is empty, so the
whole continuous span contributes at most the one utterance emitted by
its eventual closing silence), while exactly the voice-positive chunks
accumulate in the buffer. -/
theorem hangover_no_boundary (env : Env) (s : AState) (c : AudioChunk)
    (chunks : List AudioChunk)
    (hactive : s.speech_active = true)
    (hsilent : c.speech = false)
    (hwin : c.time - s.last_speech_time ≤ 1)
    (hgap : gapOk s.last_speech_time chunks = true) :
    process_audio_chunk env s c = { state := s, trace := [], err := none } ∧
    (∃ s', processChunks env s chunks = .ok (s', []) ∧
      s'.speech_active = true ∧ s'.turn = s.turn ∧
      s'.buffered_audio = s.buffered_audio ++
        ((chunks.filter (fun c => c.speech)).map (fun c => c.samples))) := by
  constructor
  · unfold process_audio_chunk
    rw [hsilent]
    simp only [Bool.false_eq_true, if_false]
    rw [if_neg]
    intro hcon
    rw [Bool.and_eq_true, decide_eq_true_eq] at hcon
    exact absurd hcon.2 (not_lt.mpr hwin)
  · exact processChunks_gapOk env chunks s hactive hgap

/-- Witness for C8: an active machine at last-speech time 10; the silent
chunk at 10.5 changes nothing, and the speech/silence/speech sequence is
processed with no boundary and both speech chunks buffered. -/
theorem hangover_no_boundary_witness :
    process_audio_chunk (witnessEnv yesClassifier yesClassifier)
        witnessAState ⟨[], false, 21/2⟩ =
      { state := witnessAState, trace := [], err := none } ∧
    (∃ s', processChunks (witnessEnv yesClassifier yesClassifier)
        witnessAState witnessChunks = .ok (s', []) ∧
      s'.speech_active = true ∧
      s'.turn = witnessAState.turn ∧
      s'.buffered_audio = witnessAState.buffered_audio ++
        ((witnessChunks.filter (fun c => c.speech)).map (fun c => c.samples))) :=
  hangover_no_boundary (witnessEnv yesClassifier yesClassifier)
    witnessAState ⟨[], false, 21/2⟩ witnessChunks
    rfl rfl (by norm_num [witnessAState])
    (by simp only [witnessAState, witnessChunks, gapOk]; norm_num)

/-- C1 (amended): failure containment is split, not uniform.  (a) An
exception raised inside a gating classifier's inference is caught inside
that collaborator: the pipeline sees the degraded negative verdicts,
completes the turn (`err = none`) with the fixed acknowledgment, and
makes no retrieval or generation call.  (Executor exceptions are likewise
caught in the dispatcher — C5.)  (b) But an exception from the retrieval
collaborator on an actionable turn propagates out of `_process_speech`
uncaught, aborting the turn; and (c) an uncaught exception from a step
terminates the consumer loop of `run`, which catches only
KeyboardInterrupt. -/
theorem collaborator_failure_containment (env : Env) (s : TurnState)
    (aState : AState) (c : AudioChunk) (rest : List AudioChunk) (e : String) :
    ((∀ txt, env.actionable_classifier.classify txt = .error e) →
      (∀ txt, env.contextable_classifier.classify txt = .error e) →
      pyStrip s.last_transcript ≠ "" →
      pyLower (pyStrip s.last_transcript) ≠ "reset memory" →
      (process_transcript env s).err = none ∧
      (process_transcript env s).state.last_response = ackResponse ∧
      Event.llmGenerate ∉ (process_transcript env s).trace ∧
      Event.retrieveCtx ∉ (process_transcript env s).trace) ∧
    (pyStrip s.last_transcript ≠ "" →
      pyLower (pyStrip s.last_transcript) ≠ "reset memory" →
      (is_actionable env.actionable_classifier s.last_transcript).flag = true →
      env.retrieve_context s.last_transcript 5 = .error e →
      (process_transcript env s).err = some e) ∧
    ((process_audio_chunk env aState c).err = some e →
      processChunks env aState (c :: rest) = .error e) := by
  refine ⟨?_, ?_, ?_⟩
  · intro hca hcc hne hnr
    have hact : (is_actionable env.actionable_classifier s.last_transcript).flag
        = false := by
      unfold is_actionable
      rw [hca]
      split <;> rfl
    have hctx : (is_contextable env.contextable_classifier s.last_transcript).flag
        = false := by
      unfold is_contextable
      rw [hcc]
      split <;> rfl
    have herr : ∀ mem1, (process_gates env s mem1).err = none := by
      intro mem1
      unfold process_gates
      rw [hact]
      simp only [Bool.false_eq_true, if_false]
      rw [hctx]
      rfl
    obtain ⟨hresp, _, hgen, hret⟩ :=
      process_gates_non_actionable env s
        (if refusal_reset_triggered s.conversation_memory then
          s.conversation_memory.clear else s.conversation_memory) hact
    unfold process_transcript
    rw [if_neg hne, if_neg hnr]
    by_cases hrr : refusal_reset_triggered s.conversation_memory
    · rw [if_pos hrr]
      rw [if_pos hrr] at hresp hgen hret
      refine ⟨herr _, hresp, ?_, ?_⟩
      · intro hmem
        simp only [List.mem_cons] at hmem
        rcases hmem with h | h
        · simp at h
        · exact hgen h
      · intro hmem
        simp only [List.mem_cons] at hmem
        rcases hmem with h | h
        · simp at h
        · exact hret h
    · rw [if_neg hrr]
      rw [if_neg hrr] at hresp hgen hret
      exact ⟨herr _, hresp, hgen, hret⟩
  · intro hne hnr hact hr
    have herr : ∀ mem1, (process_gates env s mem1).err = some e := by
      intro mem1
      unfold process_gates
      rw [hact]
      simp only [if_true]
      rw [hr]
    unfold process_transcript
    rw [if_neg hne, if_neg hnr]
    by_cases hrr : refusal_reset_triggered s.conversation_memory
    · rw [if_pos hrr]
      exact herr _
    · rw [if_neg hrr]
      exact herr _
  · intro h
    simp only [processChunks, h]

/-- Witness for C1 (amended): classifiers whose inference raises degrade
the turn to the acknowledgment with no retrieval or generation; a raising
retrieval collaborator aborts the turn; an erroring step ends the loop. -/
theorem collaborator_failure_containment_witness :
    ((process_transcript (witnessEnv ⟨true, fun _ => .error "cuda out of memory"⟩
        ⟨true, fun _ => .error "cuda out of memory"⟩)
        ⟨⟨5, []⟩, "What is the capital of France?", ""⟩).err = none ∧
      (process_transcript (witnessEnv ⟨true, fun _ => .error "cuda out of memory"⟩
        ⟨true, fun _ => .error "cuda out of memory"⟩)
        ⟨⟨5, []⟩, "What is the capital of France?", ""⟩).state.last_response =
          ackResponse ∧
      Event.llmGenerate ∉ (process_transcript
        (witnessEnv ⟨true, fun _ => .error "cuda out of memory"⟩
          ⟨true, fun _ => .error "cuda out of memory"⟩)
        ⟨⟨5, []⟩, "What is the capital of France?", ""⟩).trace ∧
      Event.retrieveCtx ∉ (process_transcript
        (witnessEnv ⟨true, fun _ => .error "cuda out of memory"⟩
          ⟨true, fun _ => .error "cuda out of memory"⟩)
        ⟨⟨5, []⟩, "What is the capital of France?", ""⟩).trace) ∧
    (process_transcript retrievalFailEnv
      ⟨⟨5, []⟩, "What is the capital of France?", ""⟩).err =
        some "retrieval backend offline" :=
  ⟨(collaborator_failure_containment
      (witnessEnv ⟨true, fun _ => .error "cuda out of memory"⟩
        ⟨true, fun _ => .error "cuda out of memory"⟩)
      ⟨⟨5, []⟩, "What is the capital of France?", ""⟩
      ⟨⟨⟨5, []⟩, "", ""⟩, [], false, 0⟩ ⟨[], false, 0⟩ [] "cuda out of memory").1
      (fun _ => rfl) (fun _ => rfl) (by decide) (by decide),
   (collaborator_failure_containment retrievalFailEnv
      ⟨⟨5, []⟩, "What is the capital of France?", ""⟩
      ⟨⟨⟨5, []⟩, "", ""⟩, [], false, 0⟩ ⟨[], false, 0⟩ []
      "retrieval backend offline").2.1
      (by decide) (by decide)
      (by show (is_actionable yesClassifier "What is the capital of France?").flag
            = true
          unfold is_actionable yesClassifier
          norm_num)
      rfl⟩

/-- C1 counterexample: the claim requires *every* collaborator failure
(including retrieval) to be caught locally with the turn completing and
the loop surviving.  With a retrieval collaborator that raises, an
actionable transcript aborts the turn (`err` set, no Turn appended), and
the consumer loop — whose only handler is for KeyboardInterrupt —
terminates with that error when a buffered utterance is processed. -/
theorem collaborator_failure_counterexample :
    (process_transcript retrievalFailEnv
      ⟨⟨5, []⟩, "What is the capital of France?", ""⟩).err =
        some "retrieval backend offline" ∧
    (process_transcript retrievalFailEnv
      ⟨⟨5, []⟩, "What is the capital of France?",
        ""⟩).state.conversation_memory.turns = [] ∧
    processChunks retrievalFailEnv ⟨⟨⟨5, []⟩, "", ""⟩, [[1]], true, 0⟩
      [⟨[], false, 2⟩] = .error "retrieval backend offline" := by
  have hflag : ∀ txt, (is_actionable yesClassifier txt).flag = true := by
    intro txt
    unfold is_actionable yesClassifier
    norm_num
  have hturn : ∀ t, pyStrip t ≠ "" → pyLower (pyStrip t) ≠ "reset memory" →
      process_transcript retrievalFailEnv ⟨⟨5, []⟩, t, ""⟩ =
        { state := ⟨⟨5, []⟩, t, ""⟩,
          trace := [Event.classifyActionable, Event.classifyContextable,
            Event.retrieveCtx],
          err := some "retrieval backend offline" } := by
    intro t hne hnr
    unfold process_transcript
    rw [if_neg hne, if_neg hnr]
    dsimp only
    rw [show refusal_reset_triggered (⟨5, []⟩ : ConversationMemory) = false
      from by decide]
    simp only [Bool.false_eq_true, if_false]
    unfold process_gates
    dsimp only [retrievalFailEnv, witnessEnv]
    rw [hflag t]
    simp only [if_true]
  refine ⟨?_, ?_, ?_⟩
  · rw [hturn _ (by decide) (by decide)]
  · rw [hturn _ (by decide) (by decide)]
  · have hstep : process_audio_chunk retrievalFailEnv
        ⟨⟨⟨5, []⟩, "", ""⟩, [[1]], true, 0⟩ ⟨[], false, 2⟩ =
        { state := { (⟨⟨⟨5, []⟩, "", ""⟩, [[1]], true, 0⟩ : AState) with
            turn := ⟨⟨5, []⟩, "what is two plus two", ""⟩ },
          trace := [Event.utteranceEmitted, Event.classifyActionable,
            Event.classifyContextable, Event.retrieveCtx],
          err := some "retrieval backend offline" } := by
      unfold process_audio_chunk
      rw [if_neg (by decide), if_pos (by norm_num)]
      unfold process_speech
      rw [show retrievalFailEnv.transcribe
        ((⟨⟨⟨5, []⟩, "", ""⟩, [[1]], true, 0⟩ : AState).buffered_audio.flatten) =
          .ok "what is two plus two" from rfl]
      dsimp only
      rw [hturn "what is two plus two" (by decide) (by decide)]
    simp only [processChunks, hstep]

end VoiceAssistant
